import Mathlib

/-!
# zap-demo: the logging set-up of `cmd/tg`, `sortPosts`, and the map-merge program

A shallow embedding of the three Go programs of the repository

* `cmd/tg/app.go`  (`TelegramLogger`, `setupLog`, `sortPosts`, the tail of `main`),
* `cmd/app/main.go` (`sortPosts`, the tail of `main`),
* `main.go`         (the map-merge program),

followed by theorems about them.

Conventions.

* Side effects are explicit: a function that performs I/O takes a `World` and returns the
  new `World`.  A `World` is the log of every request handed to an external capability
  (standard output, the rotating file, the Telegram client, standard error).
* The answers of the external capabilities are read from an `Env`.  Nothing is assumed
  about them except where a theorem states it as a hypothesis.
* A Go `error` is `Option Error` (`none` is `nil`); an error built by `multierr.Append`
  is the list of its parts (`[]` is `nil`).
* A Go pair `(x, err)` is a Lean pair.
* Library code (`go.uber.org/zap`, `zapcore`, `tgbotapi`, `sort`, `slices`) is not part of
  the repository.  The control flow of `zapcore` that routes an entry (level check, `Check`,
  `Write`, `NewTee`) and the record that its JSON encoder builds for an entry (which
  members, in which order, through which encoder function) are transcribed in the
  namespaces `zapcore` and `zap`; the rendering of a record as bytes and the sorting
  routines are parameters.
-/

set_option autoImplicit false
set_option linter.dupNamespace false

/-! ## Basic data -/

/-- One byte. -/
abbrev Byte := Fin 256

/-- A Go `[]byte`, and also a Go `string` whose content is arbitrary bytes
(`string(p)` copies the bytes of `p` unchanged). -/
abbrev Bytes := List Byte

/-- A Go `error` value: either a leaf error or `fmt.Errorf(pre ++ "%w", inner)`. -/
inductive Error where
  | leaf (msg : String)
  | wrap (pre : String) (inner : Error)
deriving DecidableEq, Repr

/-- Go `errors.Unwrap`. -/
def Error.Unwrap : Error → Option Error
  | .leaf _ => none
  | .wrap _ inner => some inner

/-- Method `Error()`: the message of the error; for `fmt.Errorf(pre ++ "%w", inner)` it is
`pre` followed by the message of `inner`. -/
def Error.Error : Error → String
  | .leaf msg => msg
  | .wrap pre inner => pre ++ Error.Error inner

/-- Result of running Go code that may panic. -/
inductive Outcome (α : Type) where
  | returned (a : α)
  | panicked (e : Error)
deriving DecidableEq, Repr

/-! ## The Telegram client (`tgbotapi`) as far as the program uses it -/

namespace tgbotapi

/-- The handle `*tgbotapi.BotAPI`; only the token it was built from is kept. -/
structure BotAPI where
  Token : String
deriving DecidableEq, Repr

/-- The part of `tgbotapi.MessageConfig` that `NewMessage` fills. -/
structure MessageConfig where
  ChatID : Int
  ReplyToMessageID : Int
  Text : Bytes
  DisableWebPagePreview : Bool
deriving DecidableEq, Repr

/-- Library function `tgbotapi.NewMessage(chatID, text)`. -/
def NewMessage (chatID : Int) (text : Bytes) : MessageConfig :=
  { ChatID := chatID, ReplyToMessageID := 0, Text := text, DisableWebPagePreview := false }

end tgbotapi

/-! ## The package `time` as far as the encoders use it -/

namespace time

/-- A `time.Time`, given by its nanoseconds since the Unix epoch (1970-01-01T00:00:00Z), in
exact arithmetic.  Its location is the local zone of the process. -/
abbrev Time := Int

/-- Method `Time.IsZero`: the zero time is January 1 of year 1, 00:00:00 UTC, which is
62135596800 seconds before the Unix epoch. -/
def Time.IsZero (t : Time) : Bool := decide (t = -62135596800000000000)

/-- Method `Time.UnixNano`: the nanoseconds since the Unix epoch as an `int64` (the value
wraps outside the range of `int64`). -/
def Time.UnixNano (t : Time) : Int := (t + 2 ^ 63) % 2 ^ 64 - 2 ^ 63

/-- The constant `time.Second`, in nanoseconds. -/
def Second : Int := 1000000000

/-- The constant `time.Millisecond`, in nanoseconds. -/
def Millisecond : Int := 1000000

/-- The constant `time.RFC3339`. -/
def RFC3339 : String := "2006-01-02T15:04:05Z07:00"

/-- The constant `time.RFC3339Nano`. -/
def RFC3339Nano : String := "2006-01-02T15:04:05.999999999Z07:00"

end time

/-! ## zapcore data -/

namespace zapcore

/-- The type `zapcore.Level` (an `int8` in Go; no arithmetic is done on it). -/
abbrev Level := Int

def DebugLevel : Level := -1
def InfoLevel : Level := 0
def WarnLevel : Level := 1
def ErrorLevel : Level := 2
def DPanicLevel : Level := 3
def PanicLevel : Level := 4
def FatalLevel : Level := 5

/-- The interface `zapcore.LevelEnabler`, reduced to its method `Enabled`. -/
abbrev LevelEnabler := Level → Bool

/-- Method `func (l Level) Enabled(lvl Level) bool { return lvl >= l }`: a `Level` used
as a `LevelEnabler` is a threshold. -/
def Level.Enabled (l : Level) : LevelEnabler := fun lvl => decide (lvl ≥ l)

/-- Method `func (l Level) CapitalString() string`: the upper-case name of a level. -/
def Level.CapitalString (l : Level) : String :=
  if l = DebugLevel then "DEBUG"
  else if l = InfoLevel then "INFO"
  else if l = WarnLevel then "WARN"
  else if l = ErrorLevel then "ERROR"
  else if l = DPanicLevel then "DPANIC"
  else if l = PanicLevel then "PANIC"
  else if l = FatalLevel then "FATAL"
  else "LEVEL(" ++ toString l ++ ")"

/-- Method `func (l Level) String() string`: the lower-case name of a level. -/
def Level.String (l : Level) : String :=
  if l = DebugLevel then "debug"
  else if l = InfoLevel then "info"
  else if l = WarnLevel then "warn"
  else if l = ErrorLevel then "error"
  else if l = DPanicLevel then "dpanic"
  else if l = PanicLevel then "panic"
  else if l = FatalLevel then "fatal"
  else "Level(" ++ toString l ++ ")"

/-- The value that an encoder function hands to the JSON encoder, named after the method
of `PrimitiveArrayEncoder` it calls.  How the JSON encoder turns such a value into bytes
(quoting and escaping of strings, `strconv` formatting of numbers, `time.Time.AppendFormat`)
is not modelled. -/
inductive JSONValue where
  /-- The call `AppendString(s)`: the JSON string `s`. -/
  | string (s : String)
  /-- The call `AppendInt64(i)`: the JSON number `i`. -/
  | int64 (i : Int)
  /-- The call `AppendFloat64(float64(num) / float64(den))`: a JSON number. -/
  | float64Quotient (num den : Int)
  /-- The call `AppendTimeLayout(t, layout)`: the JSON string `t.Format(layout)`. -/
  | timeLayout (t : time.Time) (layout : String)
deriving DecidableEq, Repr

/-- The level encoders of `zapcore` (without the two colour variants, which the program
does not use). -/
inductive LevelEncoder where
  | LowercaseLevelEncoder
  | CapitalLevelEncoder
deriving DecidableEq, Repr

/-- What a level encoder appends: `LowercaseLevelEncoder` calls
`enc.AppendString(l.String())`, `CapitalLevelEncoder` calls
`enc.AppendString(l.CapitalString())`. -/
def LevelEncoder.encode : LevelEncoder → Level → JSONValue
  | .LowercaseLevelEncoder, l => .string (Level.String l)
  | .CapitalLevelEncoder, l => .string (Level.CapitalString l)

/-- The time encoders of `zapcore`. -/
inductive TimeEncoder where
  | EpochTimeEncoder
  | EpochMillisTimeEncoder
  | EpochNanosTimeEncoder
  | ISO8601TimeEncoder
  | RFC3339TimeEncoder
  | RFC3339NanoTimeEncoder
deriving DecidableEq, Repr

/-- What a time encoder appends.  `EpochTimeEncoder` calls
`enc.AppendFloat64(float64(t.UnixNano()) / float64(time.Second))`, `EpochMillisTimeEncoder`
the same with `time.Millisecond`, `EpochNanosTimeEncoder` calls
`enc.AppendInt64(t.UnixNano())`; `ISO8601TimeEncoder`, `RFC3339TimeEncoder` and
`RFC3339NanoTimeEncoder` call `enc.AppendTimeLayout(t, layout)` with the layouts
`"2006-01-02T15:04:05.000Z0700"`, `time.RFC3339` and `time.RFC3339Nano`. -/
def TimeEncoder.encode : TimeEncoder → time.Time → JSONValue
  | .EpochTimeEncoder, t => .float64Quotient (time.Time.UnixNano t) time.Second
  | .EpochMillisTimeEncoder, t => .float64Quotient (time.Time.UnixNano t) time.Millisecond
  | .EpochNanosTimeEncoder, t => .int64 (time.Time.UnixNano t)
  | .ISO8601TimeEncoder, t => .timeLayout t "2006-01-02T15:04:05.000Z0700"
  | .RFC3339TimeEncoder, t => .timeLayout t time.RFC3339
  | .RFC3339NanoTimeEncoder, t => .timeLayout t time.RFC3339Nano

/-- The duration encoders of `zapcore`. -/
inductive DurationEncoder where
  | SecondsDurationEncoder
  | NanosDurationEncoder
  | MillisDurationEncoder
  | StringDurationEncoder
deriving DecidableEq, Repr

/-- The caller encoders of `zapcore`. -/
inductive CallerEncoder where
  | FullCallerEncoder
  | ShortCallerEncoder
deriving DecidableEq, Repr

/-- The name encoders of `zapcore`. -/
inductive NameEncoder where
  | FullNameEncoder
deriving DecidableEq, Repr

/-- The values of the field `NewReflectedEncoder` that occur: the default of `zapcore`. -/
inductive ReflectedEncoderFactory where
  | defaultReflectedEncoder
deriving DecidableEq, Repr

/-- The struct `zapcore.EncoderConfig`.  A field left out of a Go composite literal has its
zero value: `""` for a string, `false` for a boolean, `none` (Go `nil`) for a function. -/
structure EncoderConfig where
  MessageKey : String
  LevelKey : String
  TimeKey : String
  NameKey : String
  CallerKey : String
  FunctionKey : String
  StacktraceKey : String
  SkipLineEnding : Bool
  LineEnding : String
  EncodeLevel : Option LevelEncoder
  EncodeTime : Option TimeEncoder
  EncodeDuration : Option DurationEncoder
  EncodeCaller : Option CallerEncoder
  EncodeName : Option NameEncoder
  NewReflectedEncoder : Option ReflectedEncoderFactory
  ConsoleSeparator : String
deriving DecidableEq, Repr

/-- The constant `zapcore.OmitKey`. -/
def OmitKey : String := ""

/-- The constant `zapcore.DefaultLineEnding`. -/
def DefaultLineEnding : String := "\n"

/-- The struct `zapcore.Entry` (caller and stack are never set by `zap.New(core)` without
options and are left out). -/
structure Entry where
  Level : Level
  Time : time.Time
  LoggerName : String
  Message : String
deriving DecidableEq, Repr

/-- The value carried by a `zapcore.Field`. -/
inductive FieldValue where
  | str (s : String)
  | int (i : Int)
  | err (e : Error)
deriving DecidableEq, Repr

/-- The struct `zapcore.Field`. -/
structure Field where
  Key : String
  Value : FieldValue
deriving DecidableEq, Repr

/-- Method `Field.AddTo(enc)` for the fields the program builds: `zap.String` calls
`enc.AddString(key, s)`, `zap.Int` calls `enc.AddInt64(key, i)`, `zap.Error` (of a
non-nil error without a `Format` method) calls `enc.AddString(key, err.Error())`. -/
def Field.AddTo (f : Field) : String × JSONValue :=
  match f.Value with
  | .str s => (f.Key, .string s)
  | .int i => (f.Key, .int64 i)
  | .err e => (f.Key, .string (Error.Error e))

/-- The struct `jsonEncoder`: its configuration (a fresh encoder has an empty buffer and no
open namespace). -/
structure jsonEncoder where
  EncoderConfig : EncoderConfig
deriving DecidableEq, Repr

/-- Library function `zapcore.NewJSONEncoder(cfg)`: on its copy of the configuration, the
line ending becomes `""` when `SkipLineEnding` is set and `DefaultLineEnding` when it is
empty, and a nil `NewReflectedEncoder` becomes the default one. -/
def NewJSONEncoder (cfg : EncoderConfig) : jsonEncoder :=
  let cfg1 : zapcore.EncoderConfig :=
    if cfg.SkipLineEnding then { cfg with LineEnding := "" }
    else if cfg.LineEnding = "" then { cfg with LineEnding := DefaultLineEnding }
    else cfg
  let cfg2 : zapcore.EncoderConfig :=
    match cfg1.NewReflectedEncoder with
    | none => { cfg1 with NewReflectedEncoder := some .defaultReflectedEncoder }
    | some _ => cfg1
  { EncoderConfig := cfg2 }

/-- The members (key and value, in order) that `jsonEncoder.EncodeEntry(ent, fields)`
writes between `{` and `}`, for an entry without caller and stack: the level under
`LevelKey` when the key is not empty and a level encoder is set; the time under `TimeKey`
when the key is not empty and the time is not zero (by `EncodeTime`, or as
`AppendInt64(t.UnixNano())` when no time encoder is set); the logger name under `NameKey`
when both are not empty; the message under `MessageKey` when the key is not empty; then
the fields. -/
def jsonEncoder.members (enc : jsonEncoder) (ent : Entry) (fields : List Field) :
    List (String × JSONValue) :=
  (match enc.EncoderConfig.EncodeLevel with
    | some e => if enc.EncoderConfig.LevelKey ≠ "" then
        [(enc.EncoderConfig.LevelKey, e.encode ent.Level)] else []
    | none => []) ++
  (if enc.EncoderConfig.TimeKey ≠ "" ∧ time.Time.IsZero ent.Time = false then
      [(enc.EncoderConfig.TimeKey,
        match enc.EncoderConfig.EncodeTime with
        | some e => e.encode ent.Time
        | none => .int64 (time.Time.UnixNano ent.Time))]
    else []) ++
  (if ent.LoggerName ≠ "" ∧ enc.EncoderConfig.NameKey ≠ "" then
      [(enc.EncoderConfig.NameKey, .string ent.LoggerName)] else []) ++
  (if enc.EncoderConfig.MessageKey ≠ "" then
      [(enc.EncoderConfig.MessageKey, .string ent.Message)] else []) ++
  fields.map Field.AddTo

/-- What `CheckedEntry.Write` does after the cores have been written. -/
inductive CheckWriteAction where
  | WriteThenNoop
  | WriteThenPanic
  | WriteThenFatal
deriving DecidableEq, Repr

end zapcore

namespace lumberjack

/-- The struct `lumberjack.Logger` as the program fills it. -/
structure Logger where
  Filename : String
deriving DecidableEq, Repr

end lumberjack

/-! ## The outside world -/

/-- Everything the program has handed to an external capability so far, oldest first. -/
structure World where
  /-- Payloads passed to `os.Stdout.Write`. -/
  stdout : List Bytes
  /-- Number of calls of `os.Stdout.Sync`. -/
  stdoutSyncs : Nat
  /-- Payloads passed to `lumberjack.Logger.Write`, with the file name of the logger. -/
  files : List (String × Bytes)
  /-- Messages passed to `bot.Send`, with the bot they were sent through. -/
  tgSent : List (tgbotapi.BotAPI × tgbotapi.MessageConfig)
  /-- Tokens passed to `tgbotapi.NewBotAPI`. -/
  botRequests : List String
  /-- Aggregate write errors that zap reported on its error output, with the entry time. -/
  stderr : List (Int × List Error)
deriving DecidableEq, Repr

/-- The empty history. -/
def World.init : World :=
  { stdout := [], stdoutSyncs := 0, files := [], tgSent := [], botRequests := [], stderr := [] }

/-- The answers of the external capabilities, and the two constants that `cmd/tg/app.go`
expects from a file that is not part of the repository. -/
structure Env where
  /-- The bytes that the JSON encoder writes for a record with the given members and the
  given line ending: `{`, the members, `}`, the line ending. -/
  jsonBytes : List (String × zapcore.JSONValue) → String → Bytes
  /-- Result of `os.Stdout.Write(p)`. -/
  stdoutWrite : World → Bytes → Nat × Option Error
  /-- Result of `os.Stdout.Sync()`. -/
  stdoutSync : World → Option Error
  /-- Result of `(*lumberjack.Logger).Write(p)`. -/
  fileWrite : lumberjack.Logger → World → Bytes → Nat × Option Error
  /-- Error result of `bot.Send(msg)`. -/
  botSend : World → tgbotapi.BotAPI → tgbotapi.MessageConfig → Option Error
  /-- Result of `tgbotapi.NewBotAPI(token)`. -/
  NewBotAPI : World → String → Except Error tgbotapi.BotAPI
  /-- Constant `YOUR_CHAT_ID`. -/
  YOUR_CHAT_ID : Int
  /-- Constant `YOUR_TELEGRAM_BOT_TOKEN`. -/
  YOUR_TELEGRAM_BOT_TOKEN : String

/-! ## `cmd/tg/app.go`: `TelegramLogger` -/

namespace tg

/-- The struct `TelegramLogger`. -/
structure TelegramLogger where
  bot : tgbotapi.BotAPI
  chatID : Int
deriving DecidableEq, Repr

/-- Function `NewTelegramLogger(botToken, chatID)`.  The Go result `(nil, err)` is
`.error err`, the result `(logger, nil)` is `.ok logger`. -/
def NewTelegramLogger (env : Env) (botToken : String) (chatID : Int) (w : World) :
    Except Error TelegramLogger × World :=
  let w1 := { w with botRequests := w.botRequests ++ [botToken] }
  match env.NewBotAPI w botToken with
  | .error err => (.error (Error.wrap "ошибка создания бота: " err), w1)
  | .ok bot => (.ok { bot := bot, chatID := chatID }, w1)

/-- Method `(*TelegramLogger).Write(p)`: returns `(n, err)`. -/
def TelegramLogger.Write (env : Env) (t : TelegramLogger) (p : Bytes) (w : World) :
    (Nat × Option Error) × World :=
  let msg := tgbotapi.NewMessage t.chatID p
  let w1 := { w with tgSent := w.tgSent ++ [(t.bot, msg)] }
  match env.botSend w t.bot msg with
  | some err => ((0, some (Error.wrap "ошибка отправки в Telegram: " err)), w1)
  | none => ((p.length, none), w1)

/-- Method `(*TelegramLogger).Sync()`. -/
def TelegramLogger.Sync (_t : TelegramLogger) (w : World) : Option Error × World :=
  (none, w)

end tg

/-! ## zapcore: write syncers, cores, tee, checked entries -/

namespace zapcore

/-- The values of the interface `zapcore.WriteSyncer` that `setupLog` builds with
`zapcore.AddSync`.  `os.Stdout` and `*TelegramLogger` have a `Sync` method and are returned
unchanged; `*lumberjack.Logger` has none and is wrapped in a `writerWrapper`, whose `Sync`
returns `nil`. -/
inductive WriteSyncer where
  | osStdout
  | writerWrapper (l : lumberjack.Logger)
  | telegram (t : tg.TelegramLogger)
deriving DecidableEq, Repr

/-- Method `Write` of a `WriteSyncer`. -/
def WriteSyncer.Write (env : Env) (ws : WriteSyncer) (p : Bytes) (w : World) :
    (Nat × Option Error) × World :=
  match ws with
  | .osStdout => (env.stdoutWrite w p, { w with stdout := w.stdout ++ [p] })
  | .writerWrapper l => (env.fileWrite l w p, { w with files := w.files ++ [(l.Filename, p)] })
  | .telegram t => tg.TelegramLogger.Write env t p w

/-- Method `Sync` of a `WriteSyncer`. -/
def WriteSyncer.Sync (env : Env) (ws : WriteSyncer) (w : World) : Option Error × World :=
  match ws with
  | .osStdout => (env.stdoutSync w, { w with stdoutSyncs := w.stdoutSyncs + 1 })
  | .writerWrapper _ => (none, w)
  | .telegram t => tg.TelegramLogger.Sync t w

/-- Method `jsonEncoder.EncodeEntry(ent, fields)`: the record of the members, closed by the
line ending of the configuration; the JSON encoder never returns an error. -/
def jsonEncoder.EncodeEntry (env : Env) (enc : jsonEncoder) (ent : Entry) (fields : List Field) :
    Bytes × Option Error :=
  (env.jsonBytes (enc.members ent fields) enc.EncoderConfig.LineEnding, none)

/-- The struct `ioCore` built by `zapcore.NewCore`. -/
structure ioCore where
  LevelEnabler : LevelEnabler
  enc : jsonEncoder
  out : WriteSyncer

/-- The interface `zapcore.Core`: the no-op core, an `ioCore`, or a `multiCore` (a slice
of cores). -/
inductive Core where
  | nop
  | io (c : ioCore)
  | multi (cores : List Core)

/-- Library function `zapcore.NewCore(enc, ws, enab)`. -/
def NewCore (enc : jsonEncoder) (ws : WriteSyncer) (enab : LevelEnabler) : Core :=
  .io { LevelEnabler := enab, enc := enc, out := ws }

/-- Library function `zapcore.NewTee(cores...)`. -/
def NewTee (cores : List Core) : Core :=
  match cores with
  | [] => .nop
  | [c] => c
  | _ => .multi cores

/-- The struct `zapcore.CheckedEntry`: the entry, the cores that accepted it, and what to
do after writing. -/
structure CheckedEntry where
  Entry : Entry
  after : CheckWriteAction
  cores : List Core

/-- Method `(*CheckedEntry).AddCore(ent, core)`; `none` is the nil pointer. -/
def CheckedEntry.AddCore (ce : Option CheckedEntry) (ent : zapcore.Entry) (core : Core) :
    Option CheckedEntry :=
  match ce with
  | none => some { Entry := ent, after := .WriteThenNoop, cores := [core] }
  | some c => some { c with cores := c.cores ++ [core] }

/-- Method `(*CheckedEntry).After(ent, hook)`; `none` is the nil pointer. -/
def CheckedEntry.After (ce : Option CheckedEntry) (ent : zapcore.Entry)
    (hook : CheckWriteAction) :
    Option CheckedEntry :=
  match ce with
  | none => some { Entry := ent, after := hook, cores := [] }
  | some c => some { c with after := hook }

/-- Method `Enabled` of a core: an `ioCore` asks its `LevelEnabler`, a `multiCore` is
enabled when one of its cores is, the no-op core never. -/
def Core.Enabled : Core → Level → Bool
  | .nop, _ => false
  | .io c, lvl => c.LevelEnabler lvl
  | .multi cores, lvl => enabledAny cores lvl
where
  /-- The loop of `multiCore.Enabled`. -/
  enabledAny : List Core → Level → Bool
    | [], _ => false
    | c :: cs, lvl => if Core.Enabled c lvl then true else enabledAny cs lvl

/-- Method `Check` of a core: an `ioCore` adds itself when its level enabler accepts the
entry, a `multiCore` offers the entry to each of its cores in order. -/
def Core.Check : Core → Entry → Option CheckedEntry → Option CheckedEntry
  | .nop, _, ce => ce
  | .io c, ent, ce => if c.LevelEnabler ent.Level then CheckedEntry.AddCore ce ent (.io c) else ce
  | .multi cores, ent, ce => checkAll cores ent ce
where
  /-- The loop of `multiCore.Check`. -/
  checkAll : List Core → Entry → Option CheckedEntry → Option CheckedEntry
    | [], _, ce => ce
    | c :: cs, ent, ce => checkAll cs ent (Core.Check c ent ce)

/-- Method `Write` of a core.  `ioCore.Write` encodes, writes to its sink, returns the
error of the sink, and after a successful write of an entry above `ErrorLevel` calls `Sync`
and drops its result.  `multiCore.Write` writes every core and appends the errors with
`multierr.Append`; it has no early return. -/
def Core.Write (env : Env) : Core → Entry → List Field → World → List Error × World
  | .nop, _, _, w => ([], w)
  | .io c, ent, fields, w =>
    match jsonEncoder.EncodeEntry env c.enc ent fields with
    | (_, some err) => ([err], w)
    | (buf, none) =>
      match WriteSyncer.Write env c.out buf w with
      | ((_, some err), w1) => ([err], w1)
      | ((_, none), w1) =>
        if ent.Level > ErrorLevel then ([], (WriteSyncer.Sync env c.out w1).2) else ([], w1)
  | .multi cores, ent, fields, w => writeAll env cores ent fields [] w
where
  /-- The loop `for i := range mc` with its accumulator `err`. -/
  writeAll (env : Env) : List Core → Entry → List Field → List Error → World →
      List Error × World
    | [], _, _, err, w => (err, w)
    | c :: cs, ent, fields, err, w =>
      let r := Core.Write env c ent fields w
      writeAll env cs ent fields (err ++ r.1) r.2

/-- What a call of `(*CheckedEntry).Write` leaves behind. -/
structure WriteResult where
  /-- The aggregate `err` of the loop over the cores. -/
  err : List Error
  /-- The action taken after the write (panic, exit or nothing). -/
  action : CheckWriteAction
  world : World

/-- Method `(*CheckedEntry).Write(fields...)`, called on a non-nil entry whose error
output is the one of the logger: every core of the entry is written, the errors are
appended, a non-nil aggregate is reported on the error output, then the `after` action
runs. -/
def CheckedEntry.Write (env : Env) (ce : CheckedEntry) (fields : List Field) (w : World) :
    WriteResult :=
  let r := Core.Write.writeAll env ce.cores ce.Entry fields [] w
  let w1 := if r.1 ≠ [] then { r.2 with stderr := r.2.stderr ++ [(ce.Entry.Time, r.1)] } else r.2
  { err := r.1, action := ce.after, world := w1 }

end zapcore

/-! ## zap: the logger -/

namespace zap

open zapcore

/-- The struct `zap.Logger` as `zap.New(core)` builds it: no name, not in development
mode, no caller or stack annotation, error output on standard error. -/
structure Logger where
  core : Core
  development : Bool
  name : String

/-- Library function `zap.New(core)` without options, for a non-nil core. -/
def New (core : Core) : Logger := { core := core, development := false, name := "" }

/-- Library function `zap.NewProductionEncoderConfig()`. -/
def NewProductionEncoderConfig : EncoderConfig :=
  { TimeKey := "ts"
    LevelKey := "level"
    NameKey := "logger"
    CallerKey := "caller"
    FunctionKey := OmitKey
    MessageKey := "msg"
    StacktraceKey := "stacktrace"
    LineEnding := DefaultLineEnding
    EncodeLevel := some .LowercaseLevelEncoder
    EncodeTime := some .EpochTimeEncoder
    EncodeDuration := some .SecondsDurationEncoder
    EncodeCaller := some .ShortCallerEncoder
    SkipLineEnding := false
    EncodeName := none
    NewReflectedEncoder := none
    ConsoleSeparator := "" }

/-- Method `(*Logger).check(lvl, msg)`, with the clock reading `now`: a level below
`DPanicLevel` that the core does not enable gives nil; otherwise the core checks the entry
and the terminal behaviour of `Panic`, `Fatal` and (in development) `DPanic` is attached. -/
def Logger.check (log : Logger) (lvl : Level) (msg : String) (now : time.Time) :
    Option CheckedEntry :=
  if lvl < DPanicLevel ∧ ¬ (log.core.Enabled lvl = true) then none
  else
    let ent : Entry := { LoggerName := log.name, Time := now, Level := lvl, Message := msg }
    let ce := log.core.Check ent none
    if ent.Level = PanicLevel then CheckedEntry.After ce ent .WriteThenPanic
    else if ent.Level = FatalLevel then CheckedEntry.After ce ent .WriteThenFatal
    else if ent.Level = DPanicLevel then
      (if log.development then CheckedEntry.After ce ent .WriteThenPanic else ce)
    else ce

/-- The body shared by `(*Logger).Debug`, `Info`, `Warn`, `Error`, `DPanic`, `Panic` and
`Fatal`: `if ce := log.check(lvl, msg); ce != nil then ce.Write(fields...)`. -/
def Logger.log (env : Env) (log : Logger) (lvl : Level) (msg : String) (fields : List Field)
    (now : time.Time) (w : World) : WriteResult :=
  match log.check lvl msg now with
  | none => { err := [], action := .WriteThenNoop, world := w }
  | some ce => ce.Write env fields w

end zap

/-! ## Sorting routines of the Go library, as parameters -/

/-- The requirement Go places on a `less` function: a strict weak ordering. -/
structure StrictWeakOrder {α : Type} (less : α → α → Bool) : Prop where
  irrefl : ∀ a, less a a = false
  trans : ∀ a b c, less a b = true → less b c = true → less a c = true
  incomp_trans : ∀ a b c, less a b = false → less b c = false → less a c = false

/-- The struct `Post`, declared with the same fields in `cmd/app/main.go` and in
`cmd/tg/app.go`. -/
structure Post where
  ID : Int
  Title : String
  Body : String
  UserID : Int
deriving DecidableEq, Repr

/-- The type of `sort.Slice` at `[]Post`, with `less` read on elements: the slice is
permuted in place, and the permuted slice is the result. -/
abbrev SortSlice := (Post → Post → Bool) → List Post → List Post

/-- The documented contract of `sort.Slice`: it only swaps elements, and when `less` is a
strict weak ordering no element of the result is less than an earlier one.  Stability is
not promised. -/
structure SortSliceContract (sortSlice : SortSlice) : Prop where
  perm : ∀ less xs, (sortSlice less xs).Perm xs
  sorted : ∀ less, StrictWeakOrder less →
    ∀ xs, (sortSlice less xs).Pairwise (fun a b => less b a = false)

/-- The type of `slices.Sort` at `[]string`. -/
abbrev SlicesSort := List String → List String

/-- The documented contract of `slices.Sort`: the result is the input in ascending order.
Go compares strings byte by byte; on valid UTF-8 that is the order of the code points,
which is the order of Lean strings. -/
structure SlicesSortContract (slicesSort : SlicesSort) : Prop where
  perm : ∀ xs, (slicesSort xs).Perm xs
  sorted : ∀ xs, (slicesSort xs).Pairwise (fun a b => a ≤ b)

/-- A sorting routine that meets `SortSliceContract`: insertion sort. -/
def insertionSortSlice : SortSlice :=
  fun less xs => xs.insertionSort (fun a b => less b a = false)

/-- A sorting routine that meets `SlicesSortContract`: insertion sort. -/
def insertionSlicesSort : SlicesSort :=
  fun xs => xs.insertionSort (fun a b => a ≤ b)

/-! ## What a run of `main` shows -/

/-- One observable step of `main`: a call of a logger method, or a `fmt.Printf`. -/
inductive Event where
  | log (lvl : zapcore.Level) (msg : String) (fields : List zapcore.Field)
  | printf (s : String)
deriving DecidableEq, Repr

/-- The steps of a run, and the panic that ended it, if any. -/
structure Run where
  trace : List Event
  panic : Option Error
deriving DecidableEq, Repr

/-- The run-time panic of an index expression `s[i]` with `i >= len(s)`. -/
def indexOutOfRange (i n : Nat) : Error :=
  .leaf ("runtime error: index out of range [" ++ toString i ++ "] with length " ++ toString n)

/-- The texts that a run printed with `fmt.Printf`, in order. -/
def Run.printed (r : Run) : List String :=
  r.trace.filterMap (fun e => match e with
    | .printf s => some s
    | .log _ _ _ => none)

/-! ## `cmd/tg/app.go`: `sortPosts`, `printPost`, `setupLog`, the tail of `main` -/

namespace tg

open zapcore

/-- Function `sortPosts`: `sort.Slice` with `less(i, j) = posts[i].ID > posts[j].ID`. -/
def sortPosts (sortSlice : SortSlice) (posts : List Post) : List Post :=
  sortSlice (fun a b => decide (a.ID > b.ID)) posts

/-- Function `printPost`: one `logger.Debug`, then one `fmt.Printf`. -/
def printPost (posts : Post) : List Event :=
  [ .log DebugLevel "Вывод поста" [⟨"PostID", .int posts.ID⟩, ⟨"UserID", .int posts.UserID⟩],
    .printf ("title: " ++ posts.Title ++ ", body: " ++ posts.Body ++ "\n") ]

/-- The loop `for i := range 3 { printPost(sortedPosts[i], logger) }` of `main`, over the
remaining values of `i`. -/
def printLoop (sortedPosts : List Post) : List Nat → List Event → Run
  | [], tr => { trace := tr, panic := none }
  | i :: rest, tr =>
    match sortedPosts[i]? with
    | none => { trace := tr, panic := some (indexOutOfRange i sortedPosts.length) }
    | some p => printLoop sortedPosts rest (tr ++ printPost p)

/-- The statements of `main` after `fetchPosts` has returned `posts` without error. -/
def mainAfterFetch (sortSlice : SortSlice) (posts : List Post) : Run :=
  let sortedPosts := sortPosts sortSlice posts
  match sortedPosts[0]? with
  | none => { trace := [], panic := some (indexOutOfRange 0 sortedPosts.length) }
  | some first =>
    printLoop sortedPosts [0, 1, 2]
      [.log InfoLevel "Посты отсортированы" [⟨"первый ID", .int first.ID⟩]]

/-- The local variable `encoderConfig` of `setupLog`. -/
def encoderConfig : EncoderConfig :=
  { TimeKey := "ts"
    LevelKey := "level"
    MessageKey := "msg"
    EncodeLevel := some .LowercaseLevelEncoder
    EncodeTime := some .ISO8601TimeEncoder
    EncodeDuration := some .StringDurationEncoder
    NameKey := ""
    CallerKey := ""
    FunctionKey := ""
    StacktraceKey := ""
    SkipLineEnding := false
    LineEnding := ""
    EncodeCaller := none
    EncodeName := none
    NewReflectedEncoder := none
    ConsoleSeparator := "" }

/-- The closure `highPriority` of `setupLog`. -/
def highPriority : LevelEnabler := fun lvl => decide (lvl ≥ ErrorLevel)

/-- The console core of `setupLog` (the first value of the variable `core`). -/
def consoleCore : Core :=
  NewCore (NewJSONEncoder encoderConfig) .osStdout (Level.Enabled DebugLevel)

/-- The local variable `fileCore` of `setupLog`. -/
def fileCore : Core :=
  NewCore (NewJSONEncoder encoderConfig) (.writerWrapper { Filename := "logs/all.log" })
    (Level.Enabled InfoLevel)

/-- The local variable `tgCore` of `setupLog`. -/
def tgCore (tgLogger : TelegramLogger) : Core :=
  NewCore (NewJSONEncoder zap.NewProductionEncoderConfig) (.telegram tgLogger) highPriority

/-- Function `setupLog(env)`; `name` is its argument.  It returns `(logger, nil)` or
panics. -/
def setupLog (env : Env) (name : String) (w : World) :
    Outcome (zap.Logger × Option Error) × World :=
  let core := consoleCore
  if name = "production" then
    match NewTelegramLogger env env.YOUR_TELEGRAM_BOT_TOKEN env.YOUR_CHAT_ID w with
    | (.error err, w1) => (.panicked err, w1)
    | (.ok tgLogger, w1) =>
      (.returned (zap.New (NewTee [core, fileCore, tgCore tgLogger]), none), w1)
  else
    (.returned (zap.New core, none), w)

end tg

/-! ## `cmd/app/main.go`: `sortPosts`, `printPost`, the tail of `main` -/

namespace app

open zapcore

/-- Function `sortPosts`: `sort.Slice` with `less(i, j) = posts[i].ID > posts[j].ID`. -/
def sortPosts (sortSlice : SortSlice) (posts : List Post) : List Post :=
  sortSlice (fun a b => decide (a.ID > b.ID)) posts

/-- Function `printPost`: one `logger.Debug`, then one `fmt.Printf`. -/
def printPost (posts : Post) : List Event :=
  [ .log DebugLevel "Вывод поста" [⟨"PostID", .int posts.ID⟩, ⟨"UserID", .int posts.UserID⟩],
    .printf ("title: " ++ posts.Title ++ ", body: " ++ posts.Body ++ "\n") ]

/-- The loop `for i := range 3 { printPost(sortedPosts[i], logger) }` of `main`, over the
remaining values of `i`. -/
def printLoop (sortedPosts : List Post) : List Nat → List Event → Run
  | [], tr => { trace := tr, panic := none }
  | i :: rest, tr =>
    match sortedPosts[i]? with
    | none => { trace := tr, panic := some (indexOutOfRange i sortedPosts.length) }
    | some p => printLoop sortedPosts rest (tr ++ printPost p)

/-- The statements of `main` after `fetchPosts` has returned `posts` without error. -/
def mainAfterFetch (sortSlice : SortSlice) (posts : List Post) : Run :=
  let sortedPosts := sortPosts sortSlice posts
  match sortedPosts[0]? with
  | none => { trace := [], panic := some (indexOutOfRange 0 sortedPosts.length) }
  | some first =>
    printLoop sortedPosts [0, 1, 2]
      [.log InfoLevel "Посты отсортированы" [⟨"первый ID", .int first.ID⟩]]

end app

/-! ## `main.go`: the map-merge program -/

namespace mergemaps

/-- A Go `map[string]int`, given by the list of its entries. -/
abbrev GoMap := List (String × Int)

/-- The index expression `v, ok := m[k]`; `none` is `ok == false`. -/
def GoMap.get (m : GoMap) (k : String) : Option Int := List.lookup k m

/-- The package variable `m1`. -/
def m1 : GoMap := [("a", 1), ("b", 2), ("c", 3), ("x", 4)]

/-- The package variable `m2`. -/
def m2 : GoMap := [("z", 80), ("a", 34), ("b", 25), ("c", 26)]

/-- The line `fmt.Println(k, v)` writes: the operands separated by a blank, then a
newline. -/
def Println2 (k v : String) : String := k ++ " " ++ v ++ "\n"

/-- The line `fmt.Println(keys)` writes for a `[]string`. -/
def PrintlnKeys (keys : List String) : String := "[" ++ " ".intercalate keys ++ "]\n"

/-- The loop `for k, v := range m { fmt.Println(k, v) }`; `it` lists the entries in the
order in which `range` yields them. -/
def printMap (it : List (String × Int)) : List String :=
  it.map (fun kv => Println2 kv.1 (toString kv.2))

/-- The loop `for k, _ := range m { if _, ok := exist[k]; !ok { keys = append(keys, k);
exist[k] = struct{}{} } }` on the state `(keys, exist)`; `it` lists the entries in the
order in which `range` yields them. -/
def addKeys (it : List (String × Int)) (st : List String × List String) :
    List String × List String :=
  it.foldl (fun st kv => if kv.1 ∈ st.2 then st else (st.1 ++ [kv.1], kv.1 :: st.2)) st

/-- The slice `keys` when both collecting loops are done. -/
def collectedKeys (it1 it2 : List (String × Int)) : List String :=
  (addKeys it2 (addKeys it1 ([], []))).1

/-- The statement `if v, ok := m[k]; ok { fmt.Println(k, v) } else { fmt.Println(k, "-") }`. -/
def printValue (m : GoMap) (k : String) : String :=
  match m.get k with
  | some v => Println2 k (toString v)
  | none => Println2 k "-"

/-- The final loop `for _, k := range keys`, appending to what was printed before. -/
def finalLoop (m1 m2 : GoMap) (keys : List String) (out : List String) : List String :=
  keys.foldl (fun out k => (out ++ [printValue m1 k]) ++ [printValue m2 k]) out

/-- The slice `keys` after `slices.Sort(keys)`; `it3` and `it4` are the orders of the two
collecting loops. -/
def sortedKeys (slicesSort : SlicesSort) (it3 it4 : List (String × Int)) : List String :=
  slicesSort (collectedKeys it3 it4)

/-- Everything `main` prints before the final loop; `it1` and `it2` are the orders of
the two printing loops. -/
def mainHead (slicesSort : SlicesSort) (it1 it2 it3 it4 : List (String × Int)) :
    List String :=
  printMap it1 ++ ["----------------\n"] ++ printMap it2 ++
    ["----------------\n", PrintlnKeys (collectedKeys it3 it4)] ++
    [PrintlnKeys (sortedKeys slicesSort it3 it4), "----------------\n"]

/-- Function `main`: the lines written to standard output.  The maps are the package
variables `m1` and `m2`; each `range` over a map has its own iteration order. -/
def main (slicesSort : SlicesSort) (m1 m2 : GoMap) (it1 it2 it3 it4 : List (String × Int)) :
    List String :=
  finalLoop m1 m2 (sortedKeys slicesSort it3 it4) (mainHead slicesSort it1 it2 it3 it4)

end mergemaps

/-! ## Observations and a concrete environment, used to state and instantiate theorems -/

/-- The encoder configurations of the `ioCore`s inside a core, in order. -/
def zapcore.Core.encoderConfigs : zapcore.Core → List zapcore.EncoderConfig
  | .nop => []
  | .io c => [c.enc.EncoderConfig]
  | .multi cores => configsOf cores
where
  /-- The encoder configurations of a slice of cores. -/
  configsOf : List zapcore.Core → List zapcore.EncoderConfig
    | [] => []
    | c :: cs => zapcore.Core.encoderConfigs c ++ configsOf cs

/-- The sinks of the `ioCore`s inside a core, in order. -/
def zapcore.Core.sinks : zapcore.Core → List zapcore.WriteSyncer
  | .nop => []
  | .io c => [c.out]
  | .multi cores => sinksOf cores
where
  /-- The sinks of a slice of cores. -/
  sinksOf : List zapcore.Core → List zapcore.WriteSyncer
    | [] => []
    | c :: cs => zapcore.Core.sinks c ++ sinksOf cs

/-- The encoder configurations of the cores of the logger that `setupLog` returns (none
when it panics). -/
def tg.setupLogEncoderConfigs (env : Env) (name : String) (w : World) :
    List zapcore.EncoderConfig :=
  match (tg.setupLog env name w).1 with
  | .returned (logger, _) => logger.core.encoderConfigs
  | .panicked _ => []

/-- The bytes that the console core and the file core of `setupLog` hand to their sinks
for an entry: its encoding by `zapcore.NewJSONEncoder(encoderConfig)`. -/
def tg.sharedPayload (env : Env) (ent : zapcore.Entry) (fields : List zapcore.Field) : Bytes :=
  (zapcore.jsonEncoder.EncodeEntry env (zapcore.NewJSONEncoder tg.encoderConfig) ent fields).1

/-- The bytes that the Telegram core of `setupLog` hands to its sink for an entry: its
encoding by `zapcore.NewJSONEncoder(zap.NewProductionEncoderConfig())`. -/
def tg.telegramPayload (env : Env) (ent : zapcore.Entry) (fields : List zapcore.Field) :
    Bytes :=
  (zapcore.jsonEncoder.EncodeEntry env (zapcore.NewJSONEncoder zap.NewProductionEncoderConfig)
    ent fields).1

/-- A concrete environment: each capability succeeds or fails as its flag says, a failure
being the leaf error with the name of the capability; the encoder writes `{}`; the chat
is `-1001` and the token `"token"`. -/
def Env.ofFlags (stdoutOk fileOk sendOk botOk : Bool) : Env :=
  { jsonBytes := fun _ _ => [123, 125]
    stdoutWrite := fun _ p => if stdoutOk then (p.length, none) else (0, some (.leaf "stdout"))
    stdoutSync := fun _ => none
    fileWrite := fun _ _ p => if fileOk then (p.length, none) else (0, some (.leaf "file"))
    botSend := fun _ _ _ => if sendOk then none else some (.leaf "send")
    NewBotAPI := fun _ token => if botOk then .ok ⟨token⟩ else .error (.leaf "bot")
    YOUR_CHAT_ID := -1001
    YOUR_TELEGRAM_BOT_TOKEN := "token" }

/-- A concrete environment in which everything succeeds except the first message handed to
`bot.Send`: a send fails exactly when no message has been sent before. -/
def Env.firstSendFails : Env :=
  { Env.ofFlags true true true true with
    botSend := fun w _ _ => if w.tgSent.isEmpty then some (.leaf "send") else none }

/-! ## Theorems -/

/-! ### Sorting -/

/-- The comparison of `sortPosts` is a strict weak ordering. -/
theorem idGreater_strictWeakOrder :
    StrictWeakOrder (fun a b : Post => decide (a.ID > b.ID)) := by
  refine ⟨?_, ?_, ?_⟩
  · intro a; simp
  · intro a b c h1 h2
    simp only [gt_iff_lt, decide_eq_true_eq] at *
    omega
  · intro a b c h1 h2
    simp only [gt_iff_lt, decide_eq_false_iff_not, not_lt] at *
    omega

/-- Insertion sort meets the contract of `sort.Slice`. -/
theorem insertionSortSlice_contract : SortSliceContract insertionSortSlice := by
  refine ⟨?_, ?_⟩
  · intro less xs
    exact List.perm_insertionSort _ xs
  · intro less h xs
    haveI : IsTotal Post (fun a b => less b a = false) := ⟨by
      intro a b
      by_cases hab : less a b = true
      · left
        by_contra hba
        have hba2 : less b a = true := by simpa using hba
        have := h.trans a b a hab hba2
        rw [h.irrefl a] at this
        exact Bool.noConfusion this
      · right
        simpa using hab⟩
    haveI : IsTrans Post (fun a b => less b a = false) := ⟨by
      intro a b c hab hbc
      exact h.incomp_trans c b a hbc hab⟩
    exact List.sorted_insertionSort _ xs

/-- Insertion sort meets the contract of `slices.Sort`. -/
theorem insertionSlicesSort_contract : SlicesSortContract insertionSlicesSort := by
  refine ⟨?_, ?_⟩
  · intro xs
    exact List.perm_insertionSort _ xs
  · intro xs
    exact List.sorted_insertionSort _ xs

/-- With a sorting routine that meets the contract, `tg.sortPosts` returns a permutation
of its input whose IDs never increase. -/
theorem tg_sortPosts_perm_pairwise (s : SortSlice) (hs : SortSliceContract s)
    (posts : List Post) :
    (tg.sortPosts s posts).Perm posts ∧
      (tg.sortPosts s posts).Pairwise (fun a b => a.ID ≥ b.ID) := by
  refine ⟨hs.perm _ posts, ?_⟩
  have h := hs.sorted _ idGreater_strictWeakOrder posts
  refine h.imp ?_
  intro a b hab
  simp only [gt_iff_lt, decide_eq_false_iff_not, not_lt] at hab
  exact hab

/-- With a sorting routine that meets the contract, `app.sortPosts` returns a permutation
of its input whose IDs never increase. -/
theorem app_sortPosts_perm_pairwise (s : SortSlice) (hs : SortSliceContract s)
    (posts : List Post) :
    (app.sortPosts s posts).Perm posts ∧
      (app.sortPosts s posts).Pairwise (fun a b => a.ID ≥ b.ID) :=
  tg_sortPosts_perm_pairwise s hs posts

/-- Two lists of posts that are permutations of each other and both have non-increasing
IDs carry the same list of IDs. -/
theorem ids_eq_of_perm_of_pairwise {xs ys : List Post} (hp : xs.Perm ys)
    (hx : xs.Pairwise (fun a b => a.ID ≥ b.ID)) (hy : ys.Pairwise (fun a b => a.ID ≥ b.ID)) :
    xs.map Post.ID = ys.map Post.ID := by
  have hx2 : (xs.map Post.ID).Sorted (· ≥ ·) := List.pairwise_map.2 hx
  have hy2 : (ys.map Post.ID).Sorted (· ≥ ·) := List.pairwise_map.2 hy
  exact List.eq_of_perm_of_sorted (hp.map _) hx2 hy2

/-- The two copies of `sortPosts` are the same function. -/
theorem app_sortPosts_eq_tg : app.sortPosts = tg.sortPosts := rfl

/-- The two copies of the tail of `main` are the same function. -/
theorem app_mainAfterFetch_eq_tg : app.mainAfterFetch = tg.mainAfterFetch := by
  have hloop : ∀ sp l tr, app.printLoop sp l tr = tg.printLoop sp l tr := by
    intro sp l
    induction l with
    | nil => intro tr; rfl
    | cons i rest ih =>
      intro tr
      simp only [app.printLoop, tg.printLoop]
      cases sp[i]? with
      | none => rfl
      | some p => exact ih _
  funext s posts
  simp only [app.mainAfterFetch, tg.mainAfterFetch, hloop, app_sortPosts_eq_tg]

/-- The tail of `main` on each shape of the sorted slice: it panics at the first index
that is out of range, and with three or more posts it prints the first three. -/
theorem tg_mainAfterFetch_shape (s : SortSlice) (posts : List Post) :
    (tg.sortPosts s posts = [] ∧
      (tg.mainAfterFetch s posts).panic = some (indexOutOfRange 0 0)) ∨
    (∃ a, tg.sortPosts s posts = [a] ∧
      (tg.mainAfterFetch s posts).panic = some (indexOutOfRange 1 1)) ∨
    (∃ a b, tg.sortPosts s posts = [a, b] ∧
      (tg.mainAfterFetch s posts).panic = some (indexOutOfRange 2 2)) ∨
    (∃ a b c rest, tg.sortPosts s posts = a :: b :: c :: rest ∧
      (tg.mainAfterFetch s posts).panic = none ∧
      (tg.mainAfterFetch s posts).printed =
        [ "title: " ++ a.Title ++ ", body: " ++ a.Body ++ "\n",
          "title: " ++ b.Title ++ ", body: " ++ b.Body ++ "\n",
          "title: " ++ c.Title ++ ", body: " ++ c.Body ++ "\n" ]) := by
  unfold tg.mainAfterFetch
  generalize tg.sortPosts s posts = sp
  match sp with
  | [] => left; simp
  | [a] => right; left; exact ⟨a, rfl, by simp [tg.printLoop, tg.printPost]⟩
  | [a, b] => right; right; left; exact ⟨a, b, rfl, by simp [tg.printLoop, tg.printPost]⟩
  | a :: b :: c :: rest =>
    right; right; right
    exact ⟨a, b, c, rest, rfl, by simp [tg.printLoop, tg.printPost],
      by simp [tg.printLoop, tg.printPost, Run.printed]⟩

/-- The tail of `main` in `cmd/tg`: it runs to its end exactly when there are three posts
or more, otherwise it panics at index `len(posts)`; with three or more it prints the
first three posts of the sorted slice, whose IDs are the largest, in descending order. -/
theorem tg_mainAfterFetch_spec (s : SortSlice) (hs : SortSliceContract s) (posts : List Post) :
    ((tg.mainAfterFetch s posts).panic = none ↔ 3 ≤ posts.length) ∧
    (posts.length < 3 → (tg.mainAfterFetch s posts).panic =
      some (indexOutOfRange posts.length posts.length)) ∧
    (3 ≤ posts.length → ∃ a b c rest,
      tg.sortPosts s posts = a :: b :: c :: rest ∧
      (a :: b :: c :: rest).Perm posts ∧
      (tg.mainAfterFetch s posts).printed =
        [ "title: " ++ a.Title ++ ", body: " ++ a.Body ++ "\n",
          "title: " ++ b.Title ++ ", body: " ++ b.Body ++ "\n",
          "title: " ++ c.Title ++ ", body: " ++ c.Body ++ "\n" ] ∧
      a.ID ≥ b.ID ∧ b.ID ≥ c.ID ∧ ∀ q ∈ rest, c.ID ≥ q.ID) := by
  obtain ⟨hperm, hsorted⟩ := tg_sortPosts_perm_pairwise s hs posts
  have hlen := hperm.length_eq
  rcases tg_mainAfterFetch_shape s posts with ⟨h, hp⟩ | ⟨a, h, hp⟩ | ⟨a, b, h, hp⟩ |
    ⟨a, b, c, rest, h, hp, hpr⟩
  · rw [h] at hlen
    simp only [List.length_nil] at hlen
    rw [hp, ← hlen]
    simp
  · rw [h] at hlen
    simp only [List.length_singleton] at hlen
    rw [hp, ← hlen]
    simp
  · rw [h] at hlen
    simp only [List.length_cons, List.length_nil] at hlen
    rw [hp, ← hlen]
    simp
  · rw [h] at hlen hperm hsorted
    simp only [List.length_cons] at hlen
    have h3 : 3 ≤ posts.length := by omega
    refine ⟨⟨fun _ => h3, fun _ => hp⟩, fun hlt => absurd hlt (by omega), fun _ => ?_⟩
    refine ⟨a, b, c, rest, h, hperm, hpr, ?_, ?_, ?_⟩
    · exact (List.pairwise_cons.1 hsorted).1 b (by simp)
    · exact (List.pairwise_cons.1 (List.pairwise_cons.1 hsorted).2).1 c (by simp)
    · intro q hq
      exact (List.pairwise_cons.1
        (List.pairwise_cons.1 (List.pairwise_cons.1 hsorted).2).2).1 q hq

/-- Claim C7.  For every list of posts, `sortPosts` (in `cmd/tg` and in `cmd/app`, each
with any sorting routine that meets the contract of `sort.Slice`) returns a permutation of
its input, of the same length, in which an earlier post never has a smaller ID than a
later one; and the two copies produce the same sequence of IDs. -/
theorem C7_sortPosts_descending_permutation (s1 s2 : SortSlice)
    (h1 : SortSliceContract s1) (h2 : SortSliceContract s2) (posts : List Post) :
    ((tg.sortPosts s1 posts).Perm posts ∧
      (tg.sortPosts s1 posts).length = posts.length ∧
      ∀ (i j : Nat) (hi : i < (tg.sortPosts s1 posts).length)
        (hj : j < (tg.sortPosts s1 posts).length), i < j →
        (tg.sortPosts s1 posts)[i].ID ≥ (tg.sortPosts s1 posts)[j].ID) ∧
    ((app.sortPosts s2 posts).Perm posts ∧
      (app.sortPosts s2 posts).length = posts.length ∧
      ∀ (i j : Nat) (hi : i < (app.sortPosts s2 posts).length)
        (hj : j < (app.sortPosts s2 posts).length), i < j →
        (app.sortPosts s2 posts)[i].ID ≥ (app.sortPosts s2 posts)[j].ID) ∧
    (app.sortPosts s2 posts).map Post.ID = (tg.sortPosts s1 posts).map Post.ID := by
  obtain ⟨hp1, hs1⟩ := tg_sortPosts_perm_pairwise s1 h1 posts
  obtain ⟨hp2, hs2⟩ := app_sortPosts_perm_pairwise s2 h2 posts
  refine ⟨⟨hp1, hp1.length_eq, ?_⟩, ⟨hp2, hp2.length_eq, ?_⟩, ?_⟩
  · exact List.pairwise_iff_getElem.1 hs1
  · exact List.pairwise_iff_getElem.1 hs2
  · exact ids_eq_of_perm_of_pairwise (hp2.trans hp1.symm) hs2 hs1

/-- Claim C7 at the posts with IDs 2, 7, 2 (insertion sort as the sorting routine). -/
theorem C7_sortPosts_descending_permutation_witness :
    SortSliceContract insertionSortSlice ∧
    (app.sortPosts insertionSortSlice
        [⟨2, "a", "x", 1⟩, ⟨7, "b", "y", 1⟩, ⟨2, "c", "z", 2⟩]).map Post.ID =
      (tg.sortPosts insertionSortSlice
        [⟨2, "a", "x", 1⟩, ⟨7, "b", "y", 1⟩, ⟨2, "c", "z", 2⟩]).map Post.ID :=
  ⟨insertionSortSlice_contract,
    (C7_sortPosts_descending_permutation insertionSortSlice insertionSortSlice
      insertionSortSlice_contract insertionSortSlice_contract
      [⟨2, "a", "x", 1⟩, ⟨7, "b", "y", 1⟩, ⟨2, "c", "z", 2⟩]).2.2⟩

/-- Claim C9.  In both programs, after a fetch that returned `posts`, the tail of `main`
reaches its end without an index panic exactly when `len(posts) >= 3`; with fewer posts it
panics with an index out of range (at index `len(posts)`); with three or more, the three
lines printed are those of the first three posts of the sorted slice, whose IDs are in
descending order and at least as large as the ID of every other post. -/
theorem C9_main_prints_top_three (s : SortSlice) (hs : SortSliceContract s)
    (posts : List Post) :
    (((tg.mainAfterFetch s posts).panic = none ↔ 3 ≤ posts.length) ∧
    (posts.length < 3 → (tg.mainAfterFetch s posts).panic =
      some (indexOutOfRange posts.length posts.length)) ∧
    (3 ≤ posts.length → ∃ a b c rest,
      tg.sortPosts s posts = a :: b :: c :: rest ∧
      (a :: b :: c :: rest).Perm posts ∧
      (tg.mainAfterFetch s posts).printed =
        [ "title: " ++ a.Title ++ ", body: " ++ a.Body ++ "\n",
          "title: " ++ b.Title ++ ", body: " ++ b.Body ++ "\n",
          "title: " ++ c.Title ++ ", body: " ++ c.Body ++ "\n" ] ∧
      a.ID ≥ b.ID ∧ b.ID ≥ c.ID ∧ ∀ q ∈ rest, c.ID ≥ q.ID)) ∧
    (((app.mainAfterFetch s posts).panic = none ↔ 3 ≤ posts.length) ∧
    (posts.length < 3 → (app.mainAfterFetch s posts).panic =
      some (indexOutOfRange posts.length posts.length)) ∧
    (3 ≤ posts.length → ∃ a b c rest,
      app.sortPosts s posts = a :: b :: c :: rest ∧
      (a :: b :: c :: rest).Perm posts ∧
      (app.mainAfterFetch s posts).printed =
        [ "title: " ++ a.Title ++ ", body: " ++ a.Body ++ "\n",
          "title: " ++ b.Title ++ ", body: " ++ b.Body ++ "\n",
          "title: " ++ c.Title ++ ", body: " ++ c.Body ++ "\n" ] ∧
      a.ID ≥ b.ID ∧ b.ID ≥ c.ID ∧ ∀ q ∈ rest, c.ID ≥ q.ID)) := by
  refine ⟨tg_mainAfterFetch_spec s hs posts, ?_⟩
  rw [app_mainAfterFetch_eq_tg, app_sortPosts_eq_tg]
  exact tg_mainAfterFetch_spec s hs posts

/-- Claim C9 at two posts: the run panics at index 2. -/
theorem C9_main_prints_top_three_witness :
    SortSliceContract insertionSortSlice ∧
    (tg.mainAfterFetch insertionSortSlice [⟨2, "a", "x", 1⟩, ⟨7, "b", "y", 1⟩]).panic =
      some (indexOutOfRange 2 2) :=
  ⟨insertionSortSlice_contract,
    (C9_main_prints_top_three insertionSortSlice insertionSortSlice_contract
      [⟨2, "a", "x", 1⟩, ⟨7, "b", "y", 1⟩]).1.2.1 (by decide)⟩

/-! ### The map-merge program -/

namespace mergemaps

/-- A key has a value in a map exactly when it is the key of an entry. -/
theorem GoMap.get_isSome_iff (m : GoMap) (k : String) :
    (m.get k).isSome = true ↔ k ∈ m.map Prod.fst := by
  unfold GoMap.get
  induction m with
  | nil => simp
  | cons kv rest ih =>
    obtain ⟨k1, v1⟩ := kv
    by_cases h : k = k1
    · subst h; simp [List.lookup]
    · have h2 : (k == k1) = false := by simpa using h
      simp [List.lookup, h2, h, ih]

/-- One collecting loop keeps `keys` duplicate-free and `exist` equal to the set of
`keys`, and adds exactly the keys it iterates over. -/
theorem addKeys_spec (it : List (String × Int)) (st : List String × List String)
    (hnd : st.1.Nodup) (hex : ∀ k, k ∈ st.2 ↔ k ∈ st.1) :
    (addKeys it st).1.Nodup ∧ (∀ k, k ∈ (addKeys it st).2 ↔ k ∈ (addKeys it st).1) ∧
      ∀ k, k ∈ (addKeys it st).1 ↔ k ∈ st.1 ∨ k ∈ it.map Prod.fst := by
  induction it generalizing st with
  | nil => simp [addKeys, hnd, hex]
  | cons kv rest ih =>
    have hstep : addKeys (kv :: rest) st =
        addKeys rest (if kv.1 ∈ st.2 then st else (st.1 ++ [kv.1], kv.1 :: st.2)) := by
      simp [addKeys]
    rw [hstep]
    by_cases hk : kv.1 ∈ st.2
    · simp only [hk, if_true]
      obtain ⟨h1, h2, h3⟩ := ih st hnd hex
      refine ⟨h1, h2, ?_⟩
      intro k
      rw [h3 k]
      simp only [List.map_cons, List.mem_cons]
      constructor
      · rintro (h | h)
        · exact Or.inl h
        · exact Or.inr (Or.inr h)
      · rintro (h | h | h)
        · exact Or.inl h
        · exact Or.inl (h ▸ (hex _).1 hk)
        · exact Or.inr h
    · simp only [hk, if_false]
      have hk1 : kv.1 ∉ st.1 := fun h => hk ((hex _).2 h)
      have hnd2 : (st.1 ++ [kv.1]).Nodup := by
        rw [List.nodup_append]
        refine ⟨hnd, List.nodup_singleton _, ?_⟩
        intro a ha hb
        simp only [List.mem_singleton] at hb
        exact hk1 (hb ▸ ha)
      have hex2 : ∀ k, k ∈ kv.1 :: st.2 ↔ k ∈ st.1 ++ [kv.1] := by
        intro k
        simp only [List.mem_cons, List.mem_append, List.mem_singleton, List.not_mem_nil,
          or_false, hex k]
        exact Or.comm
      obtain ⟨h1, h2, h3⟩ := ih (st.1 ++ [kv.1], kv.1 :: st.2) hnd2 hex2
      refine ⟨h1, h2, ?_⟩
      intro k
      rw [h3 k]
      simp only [List.mem_append, List.mem_singleton, List.map_cons, List.mem_cons]
      tauto

/-- The collected keys are duplicate-free and are the keys of the two iterations. -/
theorem collectedKeys_spec (it1 it2 : List (String × Int)) :
    (collectedKeys it1 it2).Nodup ∧
      ∀ k, k ∈ collectedKeys it1 it2 ↔ k ∈ it1.map Prod.fst ∨ k ∈ it2.map Prod.fst := by
  obtain ⟨a1, a2, a3⟩ := addKeys_spec it1 ([], []) List.nodup_nil (by simp)
  obtain ⟨b1, _, b3⟩ := addKeys_spec it2 (addKeys it1 ([], [])) a1 a2
  refine ⟨b1, ?_⟩
  intro k
  unfold collectedKeys
  rw [b3 k, a3 k]
  simp

/-- The final loop prints two lines per key, in the order of `keys`. -/
theorem finalLoop_eq (m1 m2 : GoMap) (keys out : List String) :
    finalLoop m1 m2 keys out =
      out ++ keys.flatMap (fun k => [printValue m1 k, printValue m2 k]) := by
  induction keys generalizing out with
  | nil => simp [finalLoop]
  | cons k rest ih =>
    have hstep : finalLoop m1 m2 (k :: rest) out =
        finalLoop m1 m2 rest ((out ++ [printValue m1 k]) ++ [printValue m2 k]) := by
      simp [finalLoop]
    rw [hstep, ih]
    simp

/-- The sorted keys are strictly ascending and are the keys of the two maps. -/
theorem sortedKeys_spec (s : SlicesSort) (hs : SlicesSortContract s) (m1 m2 : GoMap)
    (it3 it4 : List (String × Int)) (h3 : it3.Perm m1) (h4 : it4.Perm m2) :
    (sortedKeys s it3 it4).Pairwise (fun a b => a < b) ∧
      ∀ k, k ∈ sortedKeys s it3 it4 ↔
        (m1.get k).isSome = true ∨ (m2.get k).isSome = true := by
  obtain ⟨hnd, hmem⟩ := collectedKeys_spec it3 it4
  have hperm := hs.perm (collectedKeys it3 it4)
  have hsorted := hs.sorted (collectedKeys it3 it4)
  refine ⟨?_, ?_⟩
  · have hnd2 : (sortedKeys s it3 it4).Nodup := hperm.nodup_iff.2 hnd
    have := hsorted.and hnd2
    exact this.imp (fun h => lt_of_le_of_ne h.1 h.2)
  · intro k
    unfold sortedKeys
    rw [hperm.mem_iff, hmem k, GoMap.get_isSome_iff, GoMap.get_isSome_iff,
      (h3.map Prod.fst).mem_iff, (h4.map Prod.fst).mem_iff]

end mergemaps

/-- Claim C10.  For all maps `m1`, `m2`, all iteration orders of the four `range` loops
and every sorting routine that meets the contract of `slices.Sort`: after
`slices.Sort(keys)` the slice `keys` is strictly ascending and holds exactly the keys that
occur in `m1` or in `m2`; it is the same for every other iteration order (and sorting
routine); and what `main` prints after the part that precedes the final loop is, for each
key in that order, the line of the key with its value in `m1` (or `-`), then the line of
the key with its value in `m2` (or `-`). -/
theorem C10_merge_keys_sorted_and_printed (s : SlicesSort) (hs : SlicesSortContract s)
    (m1 m2 : mergemaps.GoMap) (it1 it2 it3 it4 : List (String × Int))
    (h3 : it3.Perm m1) (h4 : it4.Perm m2) :
    (mergemaps.sortedKeys s it3 it4).Pairwise (fun a b => a < b) ∧
    (∀ k, k ∈ mergemaps.sortedKeys s it3 it4 ↔
      (m1.get k).isSome = true ∨ (m2.get k).isSome = true) ∧
    (∀ (s' : SlicesSort) (it3' it4' : List (String × Int)), SlicesSortContract s' →
      it3'.Perm m1 → it4'.Perm m2 →
      mergemaps.sortedKeys s' it3' it4' = mergemaps.sortedKeys s it3 it4) ∧
    mergemaps.main s m1 m2 it1 it2 it3 it4 =
      mergemaps.mainHead s it1 it2 it3 it4 ++
        (mergemaps.sortedKeys s it3 it4).flatMap (fun k =>
          [ k ++ " " ++ (match m1.get k with
              | some v => toString v
              | none => "-") ++ "\n",
            k ++ " " ++ (match m2.get k with
              | some v => toString v
              | none => "-") ++ "\n" ]) := by
  obtain ⟨hlt, hmem⟩ := mergemaps.sortedKeys_spec s hs m1 m2 it3 it4 h3 h4
  refine ⟨hlt, hmem, ?_, ?_⟩
  · intro s' it3' it4' hs' h3' h4'
    obtain ⟨hlt', hmem'⟩ := mergemaps.sortedKeys_spec s' hs' m1 m2 it3' it4' h3' h4'
    have hperm : (mergemaps.sortedKeys s' it3' it4').Perm (mergemaps.sortedKeys s it3 it4) := by
      rw [List.perm_ext_iff_of_nodup (hlt'.imp ne_of_lt) (hlt.imp ne_of_lt)]
      intro k
      rw [hmem' k, hmem k]
    exact List.eq_of_perm_of_sorted hperm hlt' hlt
  · unfold mergemaps.main
    rw [mergemaps.finalLoop_eq]
    congr 1
    congr 1
    funext k
    have hv : ∀ m : mergemaps.GoMap, mergemaps.printValue m k =
        k ++ " " ++ (match m.get k with
          | some v => toString v
          | none => "-") ++ "\n" := by
      intro m
      unfold mergemaps.printValue mergemaps.Println2
      cases m.get k <;> rfl
    rw [hv m1, hv m2]

/-- Claim C10 at the two maps of the program, iterated in reverse order of their
literals, with insertion sort. -/
theorem C10_merge_keys_sorted_and_printed_witness :
    SlicesSortContract insertionSlicesSort ∧
    (mergemaps.m1.reverse.Perm mergemaps.m1 ∧ mergemaps.m2.reverse.Perm mergemaps.m2) ∧
    (mergemaps.sortedKeys insertionSlicesSort mergemaps.m1.reverse
      mergemaps.m2.reverse).Pairwise (fun a b => a < b) :=
  ⟨insertionSlicesSort_contract,
    ⟨List.reverse_perm _, List.reverse_perm _⟩,
    (C10_merge_keys_sorted_and_printed insertionSlicesSort insertionSlicesSort_contract
      mergemaps.m1 mergemaps.m2 mergemaps.m1 mergemaps.m2 mergemaps.m1.reverse
      mergemaps.m2.reverse (List.reverse_perm _) (List.reverse_perm _)).1⟩

/-! ### The Telegram sink -/

/-- The world after `TelegramLogger.Write`: one more message handed to `bot.Send`. -/
theorem telegram_write_world (env : Env) (t : tg.TelegramLogger) (p : Bytes) (w : World) :
    (tg.TelegramLogger.Write env t p w).2 =
      { w with tgSent := w.tgSent ++ [(t.bot, tgbotapi.NewMessage t.chatID p)] } := by
  unfold tg.TelegramLogger.Write
  dsimp only
  cases env.botSend w t.bot (tgbotapi.NewMessage t.chatID p) <;> rfl

/-- Claim C3.  For every byte slice `p`, `TelegramLogger.Write(p)` hands exactly one
message to `bot.Send`, addressed to the configured `chatID` with text `string(p)`, and
touches nothing else; it returns `(len(p), nil)` exactly when that send succeeds, and
`(0, err)` with `err` wrapping the send error exactly when it fails. -/
theorem C3_telegram_write_one_send (env : Env) (t : tg.TelegramLogger) (p : Bytes) (w : World) :
    (tg.TelegramLogger.Write env t p w).2 =
      { w with tgSent := w.tgSent ++ [(t.bot, tgbotapi.NewMessage t.chatID p)] } ∧
    (tgbotapi.NewMessage t.chatID p).ChatID = t.chatID ∧
    (tgbotapi.NewMessage t.chatID p).Text = p ∧
    ((tg.TelegramLogger.Write env t p w).1 = (p.length, none) ↔
      env.botSend w t.bot (tgbotapi.NewMessage t.chatID p) = none) ∧
    (∀ e, (tg.TelegramLogger.Write env t p w).1 =
        (0, some (Error.wrap "ошибка отправки в Telegram: " e)) ↔
      env.botSend w t.bot (tgbotapi.NewMessage t.chatID p) = some e) ∧
    (∀ e, env.botSend w t.bot (tgbotapi.NewMessage t.chatID p) = some e →
      ((tg.TelegramLogger.Write env t p w).1.2.bind Error.Unwrap) = some e) := by
  unfold tg.TelegramLogger.Write
  dsimp only
  cases env.botSend w t.bot (tgbotapi.NewMessage t.chatID p) with
  | none => simp [tgbotapi.NewMessage]
  | some e => simp [tgbotapi.NewMessage, Error.Unwrap]

/-- Claim C3 at a two-byte payload whose send fails: the result is `(0, err)` with `err`
wrapping the send error. -/
theorem C3_telegram_write_one_send_witness :
    (tg.TelegramLogger.Write (Env.ofFlags true true false true)
      { bot := ⟨"token"⟩, chatID := -1001 } [104, 105] World.init).1 =
      (0, some (Error.wrap "ошибка отправки в Telegram: " (.leaf "send"))) :=
  ((C3_telegram_write_one_send (Env.ofFlags true true false true)
    { bot := ⟨"token"⟩, chatID := -1001 } [104, 105] World.init).2.2.2.2.1 (.leaf "send")).2 rfl

/-- Claim C8.  `TelegramLogger.Sync` returns `nil` and leaves the world as it is; so after
any sequence of writes `ps`, two calls of `Sync` in succession both return `nil`, send
nothing and change nothing. -/
theorem C8_telegram_sync_idempotent (env : Env) (t : tg.TelegramLogger) (ps : List Bytes)
    (w0 : World) :
    (∀ w, tg.TelegramLogger.Sync t w = (none, w)) ∧
    (tg.TelegramLogger.Sync t (ps.foldl (fun w p => (tg.TelegramLogger.Write env t p w).2) w0)).1
      = none ∧
    (tg.TelegramLogger.Sync t (tg.TelegramLogger.Sync t
      (ps.foldl (fun w p => (tg.TelegramLogger.Write env t p w).2) w0)).2).1 = none ∧
    (tg.TelegramLogger.Sync t (tg.TelegramLogger.Sync t
      (ps.foldl (fun w p => (tg.TelegramLogger.Write env t p w).2) w0)).2).2 =
      ps.foldl (fun w p => (tg.TelegramLogger.Write env t p w).2) w0 ∧
    (tg.TelegramLogger.Sync t (tg.TelegramLogger.Sync t
      (ps.foldl (fun w p => (tg.TelegramLogger.Write env t p w).2) w0)).2).2.tgSent =
      w0.tgSent ++ ps.map (fun p => (t.bot, tgbotapi.NewMessage t.chatID p)) := by
  refine ⟨fun _ => rfl, rfl, rfl, rfl, ?_⟩
  simp only [tg.TelegramLogger.Sync]
  induction ps generalizing w0 with
  | nil => simp
  | cons p rest ih =>
    simp only [List.foldl_cons, List.map_cons]
    rw [ih]
    rw [telegram_write_world]
    simp

/-! ### `setupLog` -/

/-- The result of `setupLog("production")` in terms of the result of `tgbotapi.NewBotAPI`. -/
theorem setupLog_production_eq (env : Env) (w : World) :
    tg.setupLog env "production" w =
      match env.NewBotAPI w env.YOUR_TELEGRAM_BOT_TOKEN with
      | .error e =>
        (.panicked (Error.wrap "ошибка создания бота: " e),
          { w with botRequests := w.botRequests ++ [env.YOUR_TELEGRAM_BOT_TOKEN] })
      | .ok bot =>
        (.returned (zap.New (.multi [tg.consoleCore, tg.fileCore,
            tg.tgCore { bot := bot, chatID := env.YOUR_CHAT_ID }]), none),
          { w with botRequests := w.botRequests ++ [env.YOUR_TELEGRAM_BOT_TOKEN] }) := by
  unfold tg.setupLog tg.NewTelegramLogger
  dsimp only
  cases env.NewBotAPI w env.YOUR_TELEGRAM_BOT_TOKEN <;> simp [zapcore.NewTee]

/-- The result of `setupLog(name)` for a name other than `"production"`. -/
theorem setupLog_other_eq (env : Env) (name : String) (h : name ≠ "production") (w : World) :
    tg.setupLog env name w = (.returned (zap.New tg.consoleCore, none), w) := by
  unfold tg.setupLog
  simp [h]

/-- Claim C4.  `NewTelegramLogger` fails exactly when `tgbotapi.NewBotAPI` fails, and then
returns no logger and an error wrapping the cause.  When it fails,
`setupLog("production")` panics with that error; when it succeeds, `setupLog` returns a
logger (and a nil error) whose core is the tee of the console, file and Telegram cores,
in that order.  So every logger that `setupLog("production")` returns has the Telegram
core. -/
theorem C4_production_needs_telegram (env : Env) (w : World) :
    (∀ token chatID e, (tg.NewTelegramLogger env token chatID w).1 =
        .error (Error.wrap "ошибка создания бота: " e) ↔ env.NewBotAPI w token = .error e) ∧
    (∀ token chatID, (∃ t, (tg.NewTelegramLogger env token chatID w).1 = .ok t) ↔
        ∃ bot, env.NewBotAPI w token = .ok bot) ∧
    (∀ e, env.NewBotAPI w env.YOUR_TELEGRAM_BOT_TOKEN = .error e →
      (tg.setupLog env "production" w).1 =
        .panicked (Error.wrap "ошибка создания бота: " e)) ∧
    (∀ bot, env.NewBotAPI w env.YOUR_TELEGRAM_BOT_TOKEN = .ok bot →
      (tg.setupLog env "production" w).1 =
        .returned (zap.New (.multi [tg.consoleCore, tg.fileCore,
          tg.tgCore { bot := bot, chatID := env.YOUR_CHAT_ID }]), none)) ∧
    (∀ logger err, (tg.setupLog env "production" w).1 = .returned (logger, err) →
      err = none ∧ ∃ bot, env.NewBotAPI w env.YOUR_TELEGRAM_BOT_TOKEN = .ok bot ∧
        logger.core.sinks = [.osStdout, .writerWrapper { Filename := "logs/all.log" },
          .telegram { bot := bot, chatID := env.YOUR_CHAT_ID }]) := by
  refine ⟨?_, ?_, ?_, ?_, ?_⟩
  · intro token chatID e
    unfold tg.NewTelegramLogger
    dsimp only
    cases env.NewBotAPI w token <;> simp
  · intro token chatID
    unfold tg.NewTelegramLogger
    dsimp only
    cases env.NewBotAPI w token <;> simp
  · intro e h
    rw [setupLog_production_eq, h]
  · intro bot h
    rw [setupLog_production_eq, h]
  · intro logger err h
    rw [setupLog_production_eq] at h
    cases hb : env.NewBotAPI w env.YOUR_TELEGRAM_BOT_TOKEN with
    | error e => rw [hb] at h; simp at h
    | ok bot =>
      rw [hb] at h
      simp only [Outcome.returned.injEq, Prod.mk.injEq] at h
      obtain ⟨h1, h2⟩ := h
      subst h1
      refine ⟨h2.symm, bot, rfl, ?_⟩
      simp [zap.New, zapcore.Core.sinks, zapcore.Core.sinks.sinksOf, tg.consoleCore, tg.fileCore,
        tg.tgCore, zapcore.NewCore]

/-- Claim C4 in two environments: one where the bot cannot be built (panic), one where it
can (three sinks). -/
theorem C4_production_needs_telegram_witness :
    (tg.setupLog (Env.ofFlags true true true false) "production" World.init).1 =
      .panicked (Error.wrap "ошибка создания бота: " (.leaf "bot")) ∧
    (tg.setupLog (Env.ofFlags true true true true) "production" World.init).1 =
      .returned (zap.New (.multi [tg.consoleCore, tg.fileCore,
        tg.tgCore { bot := ⟨"token"⟩, chatID := -1001 }]), none) :=
  ⟨(C4_production_needs_telegram (Env.ofFlags true true true false) World.init).2.2.1
      (.leaf "bot") rfl,
    (C4_production_needs_telegram (Env.ofFlags true true true true) World.init).2.2.2.1
      ⟨"token"⟩ rfl⟩

/-! ### Routing of an entry -/

open zapcore

/-- The method `ioCore.Write` in terms of the result of its sink. -/
theorem ioCore_write_eq (env : Env) (enc : jsonEncoder) (ws : WriteSyncer) (enab : LevelEnabler)
    (ent : Entry) (fields : List Field) (w : World) :
    Core.Write env (NewCore enc ws enab) ent fields w =
      match WriteSyncer.Write env ws (jsonEncoder.EncodeEntry env enc ent fields).1 w with
      | ((_, some err), w1) => ([err], w1)
      | ((_, none), w1) =>
        if ent.Level > ErrorLevel then ([], (WriteSyncer.Sync env ws w1).2) else ([], w1) := by
  simp [Core.Write, NewCore, jsonEncoder.EncodeEntry]

/-- The errors `ioCore.Write` returns: the error of the sink, if any. -/
theorem ioCore_write_err (env : Env) (enc : jsonEncoder) (ws : WriteSyncer) (enab : LevelEnabler)
    (ent : Entry) (fields : List Field) (w : World) :
    (Core.Write env (NewCore enc ws enab) ent fields w).1 =
      ((WriteSyncer.Write env ws (jsonEncoder.EncodeEntry env enc ent fields).1 w).1.2).toList := by
  rw [ioCore_write_eq]
  split
  · next h => simp [h]
  · next h => split <;> simp [h]

/-- The world after `ioCore.Write` on standard output: one more payload on standard output;
the file and the Telegram chat are untouched. -/
theorem ioCore_write_stdout (env : Env) (enc : jsonEncoder) (enab : LevelEnabler)
    (ent : Entry) (fields : List Field) (w : World) :
    (Core.Write env (NewCore enc .osStdout enab) ent fields w).2.stdout =
        w.stdout ++ [(jsonEncoder.EncodeEntry env enc ent fields).1] ∧
    (Core.Write env (NewCore enc .osStdout enab) ent fields w).2.files = w.files ∧
    (Core.Write env (NewCore enc .osStdout enab) ent fields w).2.tgSent = w.tgSent ∧
    (Core.Write env (NewCore enc .osStdout enab) ent fields w).2.botRequests = w.botRequests ∧
    (Core.Write env (NewCore enc .osStdout enab) ent fields w).2.stderr = w.stderr := by
  rw [ioCore_write_eq]
  simp only [WriteSyncer.Write, WriteSyncer.Sync]
  split
  · next h => simp only [Prod.mk.injEq] at h; obtain ⟨_, h2⟩ := h; subst h2; simp
  · next h =>
    simp only [Prod.mk.injEq] at h; obtain ⟨_, h2⟩ := h; subst h2
    split <;> simp

/-- The world after `ioCore.Write` on the rotating file: one more payload for the file;
standard output and the Telegram chat are untouched. -/
theorem ioCore_write_file (env : Env) (enc : jsonEncoder) (enab : LevelEnabler)
    (l : lumberjack.Logger) (ent : Entry) (fields : List Field) (w : World) :
    (Core.Write env (NewCore enc (.writerWrapper l) enab) ent fields w).2 =
      { w with files := w.files ++
          [(l.Filename, (jsonEncoder.EncodeEntry env enc ent fields).1)] } := by
  rw [ioCore_write_eq]
  simp only [WriteSyncer.Write, WriteSyncer.Sync]
  split
  · next h => simp only [Prod.mk.injEq] at h; obtain ⟨_, h2⟩ := h; subst h2; rfl
  · next h =>
    simp only [Prod.mk.injEq] at h; obtain ⟨_, h2⟩ := h; subst h2
    split <;> rfl

/-- The world after `ioCore.Write` on the Telegram sink: one more message for the chat;
standard output and the file are untouched. -/
theorem ioCore_write_telegram (env : Env) (enc : jsonEncoder) (enab : LevelEnabler)
    (t : tg.TelegramLogger) (ent : Entry) (fields : List Field) (w : World) :
    (Core.Write env (NewCore enc (.telegram t) enab) ent fields w).2 =
      { w with tgSent := w.tgSent ++
          [(t.bot, tgbotapi.NewMessage t.chatID
            (jsonEncoder.EncodeEntry env enc ent fields).1)] } := by
  rw [ioCore_write_eq]
  have hw := telegram_write_world env t (jsonEncoder.EncodeEntry env enc ent fields).1 w
  simp only [WriteSyncer.Write, WriteSyncer.Sync, tg.TelegramLogger.Sync]
  split
  · next h => rw [h] at hw; exact hw
  · next h =>
    rw [h] at hw
    split <;> exact hw

/-- The entry that `(*Logger).check` hands to the production tee, at a level that the
console accepts: the console core always, the file core from `InfoLevel`, the Telegram
core from `ErrorLevel`; `Panic` and `Fatal` attach their terminal action. -/
theorem production_check (t : tg.TelegramLogger) (L : Level) (msg : String) (now : time.Time)
    (hL : DebugLevel ≤ L) :
    (zap.New (.multi [tg.consoleCore, tg.fileCore, tg.tgCore t])).check L msg now =
      some { Entry := { Level := L, Time := now, LoggerName := "", Message := msg }
             after := if L = PanicLevel then .WriteThenPanic
               else if L = FatalLevel then .WriteThenFatal else .WriteThenNoop
             cores := tg.consoleCore ::
               ((if InfoLevel ≤ L then [tg.fileCore] else []) ++
                (if ErrorLevel ≤ L then [tg.tgCore t] else [])) } := by
  simp only [DebugLevel, InfoLevel, ErrorLevel, PanicLevel, FatalLevel] at *
  by_cases h0 : (0 : Int) ≤ L <;> by_cases h2 : (2 : Int) ≤ L <;>
    by_cases h4 : L = 4 <;> by_cases h5 : L = 5 <;>
    simp [zap.Logger.check, zap.New, Core.Enabled, Core.Enabled.enabledAny, Core.Check,
      Core.Check.checkAll, tg.consoleCore, tg.fileCore, tg.tgCore, NewCore, Level.Enabled,
      tg.highPriority, CheckedEntry.AddCore, CheckedEntry.After, DebugLevel, InfoLevel,
      ErrorLevel, DPanicLevel, PanicLevel, FatalLevel, h0, h2, h4, h5, hL]

/-- The error that the Telegram sink returns, in terms of the error of `bot.Send`. -/
theorem telegram_write_err (env : Env) (t : tg.TelegramLogger) (p : Bytes) (w : World) :
    (tg.TelegramLogger.Write env t p w).1.2 =
      (env.botSend w t.bot (tgbotapi.NewMessage t.chatID p)).map
        (Error.wrap "ошибка отправки в Telegram: ") := by
  unfold tg.TelegramLogger.Write
  dsimp only
  cases env.botSend w t.bot (tgbotapi.NewMessage t.chatID p) <;> rfl

/-- The world after the write loop over the cores that the production tee selected:
the console always gets the entry once, the file when `p1` holds, the Telegram chat when
`p2` holds, whatever the sinks answer. -/
theorem production_writeAll_world (env : Env) (t : tg.TelegramLogger) (ent : Entry)
    (fields : List Field) (w : World) (p1 p2 : Prop) [Decidable p1] [Decidable p2] :
    (Core.Write.writeAll env (tg.consoleCore ::
        ((if p1 then [tg.fileCore] else []) ++ (if p2 then [tg.tgCore t] else [])))
        ent fields [] w).2.stdout = w.stdout ++ [tg.sharedPayload env ent fields] ∧
    (Core.Write.writeAll env (tg.consoleCore ::
        ((if p1 then [tg.fileCore] else []) ++ (if p2 then [tg.tgCore t] else [])))
        ent fields [] w).2.files =
      (if p1 then w.files ++ [("logs/all.log", tg.sharedPayload env ent fields)]
        else w.files) ∧
    (Core.Write.writeAll env (tg.consoleCore ::
        ((if p1 then [tg.fileCore] else []) ++ (if p2 then [tg.tgCore t] else [])))
        ent fields [] w).2.tgSent =
      (if p2 then w.tgSent ++ [(t.bot, tgbotapi.NewMessage t.chatID
          (tg.telegramPayload env ent fields))]
        else w.tgSent) ∧
    (Core.Write.writeAll env (tg.consoleCore ::
        ((if p1 then [tg.fileCore] else []) ++ (if p2 then [tg.tgCore t] else [])))
        ent fields [] w).2.botRequests = w.botRequests ∧
    (Core.Write.writeAll env (tg.consoleCore ::
        ((if p1 then [tg.fileCore] else []) ++ (if p2 then [tg.tgCore t] else [])))
        ent fields [] w).2.stderr = w.stderr := by
  obtain ⟨c1, c2, c3, c4, c5⟩ :=
    ioCore_write_stdout env (NewJSONEncoder tg.encoderConfig) (Level.Enabled DebugLevel)
      ent fields w
  by_cases h1 : p1 <;> by_cases h2 : p2 <;>
    simp [h1, h2, Core.Write.writeAll, tg.consoleCore, tg.fileCore, tg.tgCore,
      ioCore_write_file, ioCore_write_telegram, c1, c2, c3, c4, c5, tg.sharedPayload,
      tg.telegramPayload]

/-- The aggregate error of the write loop over the cores that the production tee
selected: the errors of the writes that took place, in the order console, file,
Telegram.  The file is written in the world `w1` that the console write left, the
Telegram chat in the world `w2` that the file write left. -/
theorem production_writeAll_err (env : Env) (t : tg.TelegramLogger) (ent : Entry)
    (fields : List Field) (w : World) (p1 p2 : Prop) [Decidable p1] [Decidable p2]
    (w1 w2 : World)
    (hw1 : w1 = (Core.Write env tg.consoleCore ent fields w).2)
    (hw2 : w2 = if p1 then (Core.Write env tg.fileCore ent fields w1).2 else w1) :
    (Core.Write.writeAll env (tg.consoleCore ::
        ((if p1 then [tg.fileCore] else []) ++ (if p2 then [tg.tgCore t] else [])))
        ent fields [] w).1 =
      ((env.stdoutWrite w
          (tg.sharedPayload env ent fields)).2).toList ++
      ((if p1 then ((env.fileWrite { Filename := "logs/all.log" } w1
          (tg.sharedPayload env ent fields)).2).toList
        else []) ++
       (if p2 then ((env.botSend w2 t.bot (tgbotapi.NewMessage t.chatID
          (tg.telegramPayload env ent fields))).map
            (Error.wrap "ошибка отправки в Telegram: ")).toList
        else [])) := by
  subst hw1
  by_cases h1 : p1 <;> by_cases h2 : p2 <;>
    simp [h1, h2, hw2, Core.Write.writeAll, tg.consoleCore, tg.fileCore, tg.tgCore,
      ioCore_write_err, WriteSyncer.Write, telegram_write_err, tg.sharedPayload,
      tg.telegramPayload]

/-- What `(*CheckedEntry).Write` leaves behind, in terms of its write loop: the aggregate
error is the one of the loop, and reporting it on the error output touches no sink. -/
theorem checkedEntry_write_proj (env : Env) (ce : CheckedEntry) (fields : List Field)
    (w : World) :
    (ce.Write env fields w).err = (Core.Write.writeAll env ce.cores ce.Entry fields [] w).1 ∧
    (ce.Write env fields w).action = ce.after ∧
    (ce.Write env fields w).world.stdout =
      (Core.Write.writeAll env ce.cores ce.Entry fields [] w).2.stdout ∧
    (ce.Write env fields w).world.files =
      (Core.Write.writeAll env ce.cores ce.Entry fields [] w).2.files ∧
    (ce.Write env fields w).world.tgSent =
      (Core.Write.writeAll env ce.cores ce.Entry fields [] w).2.tgSent ∧
    (ce.Write env fields w).world.botRequests =
      (Core.Write.writeAll env ce.cores ce.Entry fields [] w).2.botRequests := by
  unfold CheckedEntry.Write
  dsimp only
  split <;> simp

/-- A logger that `setupLog("production")` returns is the tee of the console, file and
Telegram cores, the latter on the bot that `tgbotapi.NewBotAPI` returned and the chat
`YOUR_CHAT_ID`. -/
theorem setupLog_production_returned (env : Env) (w0 : World) (logger : zap.Logger)
    (err0 : Option Error)
    (h : (tg.setupLog env "production" w0).1 = .returned (logger, err0)) :
    ∃ bot, env.NewBotAPI w0 env.YOUR_TELEGRAM_BOT_TOKEN = .ok bot ∧ err0 = none ∧
      logger = zap.New (.multi [tg.consoleCore, tg.fileCore,
        tg.tgCore { bot := bot, chatID := env.YOUR_CHAT_ID }]) := by
  rw [setupLog_production_eq] at h
  cases hb : env.NewBotAPI w0 env.YOUR_TELEGRAM_BOT_TOKEN with
  | error e => rw [hb] at h; simp at h
  | ok bot =>
    rw [hb] at h
    simp only [Outcome.returned.injEq, Prod.mk.injEq] at h
    exact ⟨bot, rfl, h.2.symm, h.1.symm⟩

/-- A call of a logger method on the production logger, at a level that the console
accepts, runs `(*CheckedEntry).Write` on the entry built by `production_check`. -/
theorem production_log_eq (env : Env) (t : tg.TelegramLogger) (L : Level) (msg : String)
    (fields : List Field) (now : time.Time) (w : World) (hL : DebugLevel ≤ L) :
    (zap.New (.multi [tg.consoleCore, tg.fileCore, tg.tgCore t])).log env L msg fields now w =
      CheckedEntry.Write env
        { Entry := { Level := L, Time := now, LoggerName := "", Message := msg }
          after := if L = PanicLevel then .WriteThenPanic
            else if L = FatalLevel then .WriteThenFatal else .WriteThenNoop
          cores := tg.consoleCore ::
            ((if InfoLevel ≤ L then [tg.fileCore] else []) ++
             (if ErrorLevel ≤ L then [tg.tgCore t] else [])) } fields w := by
  unfold zap.Logger.log
  rw [production_check t L msg now hL]

/-- The entry that `(*Logger).check` hands to the console core alone, at a level that
the console accepts. -/
theorem console_check (L : Level) (msg : String) (now : time.Time) (hL : DebugLevel ≤ L) :
    (zap.New tg.consoleCore).check L msg now =
      some { Entry := { Level := L, Time := now, LoggerName := "", Message := msg }
             after := if L = PanicLevel then .WriteThenPanic
               else if L = FatalLevel then .WriteThenFatal else .WriteThenNoop
             cores := [tg.consoleCore] } := by
  simp only [DebugLevel, PanicLevel, FatalLevel] at *
  by_cases h4 : L = 4 <;> by_cases h5 : L = 5 <;>
    simp [zap.Logger.check, zap.New, Core.Enabled, Core.Check, tg.consoleCore, NewCore,
      Level.Enabled, CheckedEntry.AddCore, CheckedEntry.After, DebugLevel,
      DPanicLevel, PanicLevel, FatalLevel, h4, h5, hL]

/-- A call of a logger method on the console-only logger, at a level that the console
accepts, runs `(*CheckedEntry).Write` on the entry built by `console_check`. -/
theorem console_log_eq (env : Env) (L : Level) (msg : String)
    (fields : List Field) (now : time.Time) (w : World) (hL : DebugLevel ≤ L) :
    (zap.New tg.consoleCore).log env L msg fields now w =
      CheckedEntry.Write env
        { Entry := { Level := L, Time := now, LoggerName := "", Message := msg }
          after := if L = PanicLevel then .WriteThenPanic
            else if L = FatalLevel then .WriteThenFatal else .WriteThenNoop
          cores := [tg.consoleCore] } fields w := by
  unfold zap.Logger.log
  rw [console_check L msg now hL]

/-- Claim C1.  Let `logger` be returned by `setupLog("production")`.  For every level `L`
among Debug, Info, Warn, Error, Fatal, a call of the logger at `L` hands the entry once
to standard output (console core); once to the file `logs/all.log` when `L >= Info` and
not at all otherwise; once to the Telegram chat `YOUR_CHAT_ID` when `L` is Error or
Fatal and not at all otherwise. -/
theorem C1_production_routing (env : Env) (w0 : World) (logger : zap.Logger)
    (err0 : Option Error)
    (hsetup : (tg.setupLog env "production" w0).1 = .returned (logger, err0))
    (L : Level) (hL : L ∈ [DebugLevel, InfoLevel, WarnLevel, ErrorLevel, FatalLevel])
    (msg : String) (fields : List Field) (now : time.Time) (w : World) :
    ∃ bot, env.NewBotAPI w0 env.YOUR_TELEGRAM_BOT_TOKEN = .ok bot ∧
      (logger.log env L msg fields now w).world.stdout =
        w.stdout ++ [tg.sharedPayload env ⟨L, now, "", msg⟩ fields] ∧
      (InfoLevel ≤ L → (logger.log env L msg fields now w).world.files =
        w.files ++ [("logs/all.log", tg.sharedPayload env ⟨L, now, "", msg⟩ fields)]) ∧
      (L < InfoLevel → (logger.log env L msg fields now w).world.files = w.files) ∧
      (L = ErrorLevel ∨ L = FatalLevel → (logger.log env L msg fields now w).world.tgSent =
        w.tgSent ++ [(bot, tgbotapi.NewMessage env.YOUR_CHAT_ID
          (tg.telegramPayload env ⟨L, now, "", msg⟩ fields))]) ∧
      (¬ (L = ErrorLevel ∨ L = FatalLevel) →
        (logger.log env L msg fields now w).world.tgSent = w.tgSent) := by
  obtain ⟨bot, hbot, _, hlogger⟩ := setupLog_production_returned env w0 logger err0 hsetup
  subst hlogger
  have hD : DebugLevel ≤ L := by
    simp only [List.mem_cons, List.mem_singleton, List.not_mem_nil, or_false] at hL
    rcases hL with rfl | rfl | rfl | rfl | rfl <;> decide
  refine ⟨bot, hbot, ?_⟩
  rw [production_log_eq env _ L msg fields now w hD]
  obtain ⟨_, _, p1, p2, p3, _⟩ := checkedEntry_write_proj env
    { Entry := { Level := L, Time := now, LoggerName := "", Message := msg }
      after := if L = PanicLevel then .WriteThenPanic
        else if L = FatalLevel then .WriteThenFatal else .WriteThenNoop
      cores := tg.consoleCore ::
        ((if InfoLevel ≤ L then [tg.fileCore] else []) ++
         (if ErrorLevel ≤ L then [tg.tgCore { bot := bot, chatID := env.YOUR_CHAT_ID }]
          else [])) } fields w
  obtain ⟨q1, q2, q3, _, _⟩ := production_writeAll_world env
    { bot := bot, chatID := env.YOUR_CHAT_ID }
    { Level := L, Time := now, LoggerName := "", Message := msg } fields w
    (InfoLevel ≤ L) (ErrorLevel ≤ L)
  rw [p1, p2, p3, q1, q2, q3]
  refine ⟨rfl, ?_, ?_, ?_, ?_⟩
  · intro h; simp [h]
  · intro h; simp [not_le.2 h]
  · intro h
    have : ErrorLevel ≤ L := by rcases h with rfl | rfl <;> decide
    simp [this]
  · intro h
    have : ¬ ErrorLevel ≤ L := by
      simp only [List.mem_cons, List.mem_singleton, List.not_mem_nil, or_false] at hL
      rcases hL with rfl | rfl | rfl | rfl | rfl
      · decide
      · decide
      · decide
      · exact absurd (Or.inl rfl) h
      · exact absurd (Or.inr rfl) h
    simp [this]

/-- Below `DebugLevel` the production logger drops the entry: nothing is written and the
aggregate error is empty. -/
theorem production_log_below (env : Env) (t : tg.TelegramLogger) (L : Level) (msg : String)
    (fields : List Field) (now : time.Time) (w : World) (hL : L < DebugLevel) :
    (zap.New (.multi [tg.consoleCore, tg.fileCore, tg.tgCore t])).log env L msg fields now w =
      { err := [], action := .WriteThenNoop, world := w } := by
  have hcheck : (zap.New (.multi [tg.consoleCore, tg.fileCore, tg.tgCore t])).check L msg now
      = none := by
    have h0 : ¬ (0 : Int) ≤ L := not_le.2 (lt_trans hL (by decide))
    have h1 : ¬ (-1 : Int) ≤ L := not_le.2 hL
    have h2 : ¬ (2 : Int) ≤ L := not_le.2 (lt_trans hL (by decide))
    have h3 : L < (3 : Int) := lt_trans hL (by decide)
    simp [zap.Logger.check, zap.New, Core.Enabled, Core.Enabled.enabledAny, tg.consoleCore,
      tg.fileCore, tg.tgCore, NewCore, Level.Enabled, tg.highPriority, DebugLevel, InfoLevel,
      ErrorLevel, DPanicLevel, h0, h1, h2, h3]
  unfold zap.Logger.log
  rw [hcheck]

/-- The effect of a call of the production logger at a level that the console accepts:
what each sink received, and the aggregate error in terms of the results of the writes
that took place (`w1` and `w2` are the worlds in which the file and the Telegram chat are
written). -/
theorem production_log_effect (env : Env) (t : tg.TelegramLogger) (L : Level) (msg : String)
    (fields : List Field) (now : time.Time) (w : World) (hL : DebugLevel ≤ L)
    (w1 w2 : World)
    (hw1 : w1 = (Core.Write env tg.consoleCore ⟨L, now, "", msg⟩ fields w).2)
    (hw2 : w2 = if InfoLevel ≤ L then
      (Core.Write env tg.fileCore ⟨L, now, "", msg⟩ fields w1).2 else w1) :
    ((zap.New (.multi [tg.consoleCore, tg.fileCore, tg.tgCore t])).log env L msg fields now
        w).world.stdout = w.stdout ++
      [tg.sharedPayload env ⟨L, now, "", msg⟩ fields] ∧
    ((zap.New (.multi [tg.consoleCore, tg.fileCore, tg.tgCore t])).log env L msg fields now
        w).world.files = (if InfoLevel ≤ L then
          w.files ++ [("logs/all.log", tg.sharedPayload env ⟨L, now, "", msg⟩ fields)]
          else w.files) ∧
    ((zap.New (.multi [tg.consoleCore, tg.fileCore, tg.tgCore t])).log env L msg fields now
        w).world.tgSent = (if ErrorLevel ≤ L then
          w.tgSent ++ [(t.bot, tgbotapi.NewMessage t.chatID
            (tg.telegramPayload env ⟨L, now, "", msg⟩ fields))]
          else w.tgSent) ∧
    ((zap.New (.multi [tg.consoleCore, tg.fileCore, tg.tgCore t])).log env L msg fields now
        w).err =
      ((env.stdoutWrite w (tg.sharedPayload env ⟨L, now, "", msg⟩ fields)).2).toList ++
      ((if InfoLevel ≤ L then ((env.fileWrite { Filename := "logs/all.log" } w1
          (tg.sharedPayload env ⟨L, now, "", msg⟩ fields)).2).toList
        else []) ++
       (if ErrorLevel ≤ L then ((env.botSend w2 t.bot (tgbotapi.NewMessage t.chatID
          (tg.telegramPayload env ⟨L, now, "", msg⟩ fields))).map
            (Error.wrap "ошибка отправки в Telegram: ")).toList
        else [])) := by
  rw [production_log_eq env t L msg fields now w hL]
  obtain ⟨p0, _, p1, p2, p3, _⟩ := checkedEntry_write_proj env
    { Entry := { Level := L, Time := now, LoggerName := "", Message := msg }
      after := if L = PanicLevel then .WriteThenPanic
        else if L = FatalLevel then .WriteThenFatal else .WriteThenNoop
      cores := tg.consoleCore ::
        ((if InfoLevel ≤ L then [tg.fileCore] else []) ++
         (if ErrorLevel ≤ L then [tg.tgCore t] else [])) } fields w
  obtain ⟨q1, q2, q3, _, _⟩ := production_writeAll_world env t
    { Level := L, Time := now, LoggerName := "", Message := msg } fields w
    (InfoLevel ≤ L) (ErrorLevel ≤ L)
  rw [p0, p1, p2, p3, q1, q2, q3]
  exact ⟨rfl, rfl, rfl, production_writeAll_err env t _ fields w _ _ w1 w2 hw1 hw2⟩

/-- Claim C2.  Let `logger` be returned by `setupLog("production")` and consider one call
of the logger.  Its console core writes standard output in the world `w`, its file core
writes the file in the world `w1` that the console write left, its Telegram core sends in
the world `w2` that the file write left; a core that does not accept the level writes
nothing.  If the write of one core takes place and fails with the error `e` while the
writes of the other accepting cores succeed, then the aggregate error of the call holds
exactly one error, the one of the failing sink (for the Telegram sink: `e` wrapped by
`TelegramLogger.Write`), and each other sink still receives the entry exactly once if its
core accepts the level and not at all otherwise.  If no write fails, the aggregate error
is empty.  Nothing is assumed about any other write. -/
theorem C2_fanout_isolation (env : Env) (w0 : World) (logger : zap.Logger)
    (err0 : Option Error)
    (hsetup : (tg.setupLog env "production" w0).1 = .returned (logger, err0))
    (L : Level) (msg : String) (fields : List Field) (now : time.Time) (w : World) (e : Error)
    (w1 w2 : World)
    (hw1 : w1 = (Core.Write env tg.consoleCore ⟨L, now, "", msg⟩ fields w).2)
    (hw2 : w2 = if InfoLevel ≤ L then
      (Core.Write env tg.fileCore ⟨L, now, "", msg⟩ fields w1).2 else w1) :
    ∃ bot, env.NewBotAPI w0 env.YOUR_TELEGRAM_BOT_TOKEN = .ok bot ∧
    ((env.stdoutWrite w (tg.sharedPayload env ⟨L, now, "", msg⟩ fields)).2 = some e →
      (InfoLevel ≤ L → (env.fileWrite { Filename := "logs/all.log" } w1
        (tg.sharedPayload env ⟨L, now, "", msg⟩ fields)).2 = none) →
      (ErrorLevel ≤ L → env.botSend w2 bot (tgbotapi.NewMessage env.YOUR_CHAT_ID
        (tg.telegramPayload env ⟨L, now, "", msg⟩ fields)) = none) →
      DebugLevel ≤ L →
      (logger.log env L msg fields now w).err = [e] ∧
      (logger.log env L msg fields now w).world.files = (if InfoLevel ≤ L then
        w.files ++ [("logs/all.log", tg.sharedPayload env ⟨L, now, "", msg⟩ fields)]
        else w.files) ∧
      (logger.log env L msg fields now w).world.tgSent = (if ErrorLevel ≤ L then
        w.tgSent ++ [(bot, tgbotapi.NewMessage env.YOUR_CHAT_ID
          (tg.telegramPayload env ⟨L, now, "", msg⟩ fields))]
        else w.tgSent)) ∧
    ((env.stdoutWrite w (tg.sharedPayload env ⟨L, now, "", msg⟩ fields)).2 = none →
      (env.fileWrite { Filename := "logs/all.log" } w1
        (tg.sharedPayload env ⟨L, now, "", msg⟩ fields)).2 = some e →
      (ErrorLevel ≤ L → env.botSend w2 bot (tgbotapi.NewMessage env.YOUR_CHAT_ID
        (tg.telegramPayload env ⟨L, now, "", msg⟩ fields)) = none) →
      InfoLevel ≤ L →
      (logger.log env L msg fields now w).err = [e] ∧
      (logger.log env L msg fields now w).world.stdout = w.stdout ++
        [tg.sharedPayload env ⟨L, now, "", msg⟩ fields] ∧
      (logger.log env L msg fields now w).world.tgSent = (if ErrorLevel ≤ L then
        w.tgSent ++ [(bot, tgbotapi.NewMessage env.YOUR_CHAT_ID
          (tg.telegramPayload env ⟨L, now, "", msg⟩ fields))]
        else w.tgSent)) ∧
    ((env.stdoutWrite w (tg.sharedPayload env ⟨L, now, "", msg⟩ fields)).2 = none →
      (env.fileWrite { Filename := "logs/all.log" } w1
        (tg.sharedPayload env ⟨L, now, "", msg⟩ fields)).2 = none →
      env.botSend w2 bot (tgbotapi.NewMessage env.YOUR_CHAT_ID
        (tg.telegramPayload env ⟨L, now, "", msg⟩ fields)) = some e →
      ErrorLevel ≤ L →
      (logger.log env L msg fields now w).err =
        [Error.wrap "ошибка отправки в Telegram: " e] ∧
      (logger.log env L msg fields now w).world.stdout = w.stdout ++
        [tg.sharedPayload env ⟨L, now, "", msg⟩ fields] ∧
      (logger.log env L msg fields now w).world.files = w.files ++
        [("logs/all.log", tg.sharedPayload env ⟨L, now, "", msg⟩ fields)]) ∧
    ((DebugLevel ≤ L →
        (env.stdoutWrite w (tg.sharedPayload env ⟨L, now, "", msg⟩ fields)).2 = none) →
      (InfoLevel ≤ L → (env.fileWrite { Filename := "logs/all.log" } w1
        (tg.sharedPayload env ⟨L, now, "", msg⟩ fields)).2 = none) →
      (ErrorLevel ≤ L → env.botSend w2 bot (tgbotapi.NewMessage env.YOUR_CHAT_ID
        (tg.telegramPayload env ⟨L, now, "", msg⟩ fields)) = none) →
      (logger.log env L msg fields now w).err = []) := by
  obtain ⟨bot, hbot, _, hlogger⟩ := setupLog_production_returned env w0 logger err0 hsetup
  subst hlogger
  refine ⟨bot, hbot, ?_, ?_, ?_, ?_⟩
  · intro hC hF hT hD
    obtain ⟨_, e2, e3, e4⟩ := production_log_effect env
      { bot := bot, chatID := env.YOUR_CHAT_ID } L msg fields now w hD w1 w2 hw1 hw2
    refine ⟨?_, e2, e3⟩
    rw [e4, hC]
    by_cases hI : InfoLevel ≤ L <;> by_cases hE : ErrorLevel ≤ L <;>
      simp [hI, hE, hF, hT]
  · intro hC hF hT hI
    have hD : DebugLevel ≤ L := le_trans (by decide) hI
    obtain ⟨e1, _, e3, e4⟩ := production_log_effect env
      { bot := bot, chatID := env.YOUR_CHAT_ID } L msg fields now w hD w1 w2 hw1 hw2
    refine ⟨?_, e1, e3⟩
    rw [e4, hC, hF]
    by_cases hE : ErrorLevel ≤ L <;> simp [hI, hE, hT]
  · intro hC hF hT hE
    have hI : InfoLevel ≤ L := le_trans (by decide) hE
    have hD : DebugLevel ≤ L := le_trans (by decide) hE
    obtain ⟨e1, e2, _, e4⟩ := production_log_effect env
      { bot := bot, chatID := env.YOUR_CHAT_ID } L msg fields now w hD w1 w2 hw1 hw2
    refine ⟨?_, e1, ?_⟩
    · rw [e4, hC, hF, hT]
      simp [hI, hE]
    · rw [e2]
      simp [hI]
  · intro hC hF hT
    by_cases hD : DebugLevel ≤ L
    · obtain ⟨_, _, _, e4⟩ := production_log_effect env
        { bot := bot, chatID := env.YOUR_CHAT_ID } L msg fields now w hD w1 w2 hw1 hw2
      rw [e4, hC hD]
      by_cases hI : InfoLevel ≤ L <;> by_cases hE : ErrorLevel ≤ L <;>
        simp [hI, hE, hF, hT]
    · rw [production_log_below env _ L msg fields now w (not_le.1 hD)]

/-- Claim C1 at a Warn entry, in an environment where everything succeeds: console and
file receive it, the Telegram chat does not. -/
theorem C1_production_routing_witness :
    (tg.setupLog (Env.ofFlags true true true true) "production" World.init).1 =
      .returned (zap.New (.multi [tg.consoleCore, tg.fileCore,
        tg.tgCore { bot := ⟨"token"⟩, chatID := -1001 }]), none) ∧
    WarnLevel ∈ [DebugLevel, InfoLevel, WarnLevel, ErrorLevel, FatalLevel] ∧
    ((zap.New (.multi [tg.consoleCore, tg.fileCore,
        tg.tgCore { bot := ⟨"token"⟩, chatID := -1001 }])).log
        (Env.ofFlags true true true true) WarnLevel "x" [] 0 World.init).world.stdout =
      [[123, 125]] :=
  ⟨rfl, by decide,
    Exists.elim (C1_production_routing (Env.ofFlags true true true true) World.init
      (zap.New (.multi [tg.consoleCore, tg.fileCore,
        tg.tgCore { bot := ⟨"token"⟩, chatID := -1001 }])) none rfl WarnLevel (by decide)
      "x" [] 0 World.init) (fun _ h => h.2.1)⟩

/-- Claim C2 at an Error entry, in an environment where only the first Telegram send
fails: the aggregate error is the wrapped send error alone, and console and file have
received the entry. -/
theorem C2_fanout_isolation_witness :
    (tg.setupLog Env.firstSendFails "production" World.init).1 =
      .returned (zap.New (.multi [tg.consoleCore, tg.fileCore,
        tg.tgCore { bot := ⟨"token"⟩, chatID := -1001 }]), none) ∧
    ((zap.New (.multi [tg.consoleCore, tg.fileCore,
        tg.tgCore { bot := ⟨"token"⟩, chatID := -1001 }])).log
        Env.firstSendFails ErrorLevel "x" [] 0 World.init).err =
      [Error.wrap "ошибка отправки в Telegram: " (.leaf "send")] ∧
    ((zap.New (.multi [tg.consoleCore, tg.fileCore,
        tg.tgCore { bot := ⟨"token"⟩, chatID := -1001 }])).log
        Env.firstSendFails ErrorLevel "x" [] 0 World.init).world.stdout = [[123, 125]] ∧
    ((zap.New (.multi [tg.consoleCore, tg.fileCore,
        tg.tgCore { bot := ⟨"token"⟩, chatID := -1001 }])).log
        Env.firstSendFails ErrorLevel "x" [] 0 World.init).world.files =
      [("logs/all.log", [123, 125])] :=
  ⟨rfl,
    Exists.elim (C2_fanout_isolation Env.firstSendFails World.init
      (zap.New (.multi [tg.consoleCore, tg.fileCore,
        tg.tgCore { bot := ⟨"token"⟩, chatID := -1001 }])) none rfl ErrorLevel
      "x" [] 0 World.init (.leaf "send")
      (Core.Write Env.firstSendFails tg.consoleCore ⟨ErrorLevel, 0, "", "x"⟩ [] World.init).2
      (Core.Write Env.firstSendFails tg.fileCore ⟨ErrorLevel, 0, "", "x"⟩ []
        (Core.Write Env.firstSendFails tg.consoleCore
          ⟨ErrorLevel, 0, "", "x"⟩ [] World.init).2).2
      rfl rfl)
      (fun _ h => h.2.2.2.1 rfl rfl rfl (by decide))⟩

/-- The effect of a call of the console-only logger at a level that the console accepts:
standard output receives the entry once, nothing else is touched, and the aggregate error
is the error of that write. -/
theorem console_log_effect (env : Env) (L : Level) (msg : String) (fields : List Field)
    (now : time.Time) (w : World) (hL : DebugLevel ≤ L) :
    ((zap.New tg.consoleCore).log env L msg fields now w).world.stdout =
      w.stdout ++ [tg.sharedPayload env ⟨L, now, "", msg⟩ fields] ∧
    ((zap.New tg.consoleCore).log env L msg fields now w).world.files = w.files ∧
    ((zap.New tg.consoleCore).log env L msg fields now w).world.tgSent = w.tgSent ∧
    ((zap.New tg.consoleCore).log env L msg fields now w).world.botRequests =
      w.botRequests ∧
    ((zap.New tg.consoleCore).log env L msg fields now w).err =
      ((env.stdoutWrite w (tg.sharedPayload env ⟨L, now, "", msg⟩ fields)).2).toList := by
  rw [console_log_eq env L msg fields now w hL]
  obtain ⟨p0, _, p1, p2, p3, p4⟩ := checkedEntry_write_proj env
    { Entry := { Level := L, Time := now, LoggerName := "", Message := msg }
      after := if L = PanicLevel then .WriteThenPanic
        else if L = FatalLevel then .WriteThenFatal else .WriteThenNoop
      cores := [tg.consoleCore] } fields w
  obtain ⟨c1, c2, c3, c4, _⟩ :=
    ioCore_write_stdout env (NewJSONEncoder tg.encoderConfig) (Level.Enabled DebugLevel)
      { Level := L, Time := now, LoggerName := "", Message := msg } fields w
  have herr := ioCore_write_err env (NewJSONEncoder tg.encoderConfig) .osStdout
      (Level.Enabled DebugLevel)
      { Level := L, Time := now, LoggerName := "", Message := msg } fields w
  rw [p0, p1, p2, p3, p4]
  simp only [Core.Write.writeAll, tg.consoleCore, List.nil_append, c1, c2, c3,
    c4, herr, WriteSyncer.Write, tg.sharedPayload, and_self]

/-- Claim C5.  For every name other than `"production"`, `setupLog` returns, without
panic and with a nil error, a logger whose only core is the console core (sink standard
output, threshold Debug); it builds no Telegram logger and touches nothing.  A call of that
logger at any level from Debug up hands the entry exactly once to standard output and
nothing to the file or to the Telegram chat; its aggregate error is the error of that one
write, hence empty when the write succeeds. -/
theorem C5_development_console_only (env : Env) (name : String) (hname : name ≠ "production")
    (w0 : World) :
    tg.setupLog env name w0 = (.returned (zap.New tg.consoleCore, none), w0) ∧
    (zap.New tg.consoleCore).core.sinks = [.osStdout] ∧
    (∀ lvl, Core.Enabled (zap.New tg.consoleCore).core lvl = decide (lvl ≥ DebugLevel)) ∧
    ∀ (L : Level) (msg : String) (fields : List Field) (now : time.Time) (w : World),
      DebugLevel ≤ L →
      ((zap.New tg.consoleCore).log env L msg fields now w).world.stdout =
        w.stdout ++ [tg.sharedPayload env ⟨L, now, "", msg⟩ fields] ∧
      ((zap.New tg.consoleCore).log env L msg fields now w).world.files = w.files ∧
      ((zap.New tg.consoleCore).log env L msg fields now w).world.tgSent = w.tgSent ∧
      ((zap.New tg.consoleCore).log env L msg fields now w).world.botRequests =
        w.botRequests ∧
      ((zap.New tg.consoleCore).log env L msg fields now w).err =
        ((env.stdoutWrite w (tg.sharedPayload env ⟨L, now, "", msg⟩ fields)).2).toList ∧
      ((env.stdoutWrite w (tg.sharedPayload env ⟨L, now, "", msg⟩ fields)).2 = none →
        ((zap.New tg.consoleCore).log env L msg fields now w).err = []) := by
  refine ⟨setupLog_other_eq env name hname w0, rfl, fun _ => rfl, ?_⟩
  intro L msg fields now w hL
  obtain ⟨h1, h2, h3, h4, h5⟩ := console_log_effect env L msg fields now w hL
  refine ⟨h1, h2, h3, h4, h5, ?_⟩
  intro h
  rw [h5, h]
  rfl

/-- Claim C5 at the name `"development"` and a Debug entry whose console write
succeeds: no error. -/
theorem C5_development_console_only_witness :
    "development" ≠ "production" ∧
    DebugLevel ≤ DebugLevel ∧
    ((zap.New tg.consoleCore).log (Env.ofFlags true true true true) DebugLevel "x" [] 0
      World.init).err = [] :=
  ⟨by decide, by decide,
    ((C5_development_console_only (Env.ofFlags true true true true) "development" (by decide)
      World.init).2.2.2 DebugLevel "x" [] 0 World.init (by decide)).2.2.2.2.2 rfl⟩

/-! ### The encoders of the cores -/

/-- The configuration that the JSON encoder of the console and file cores holds: the
local `encoderConfig` with the line ending and the reflected encoder filled in by
`zapcore.NewJSONEncoder`. -/
theorem sharedEncoder_config :
    (NewJSONEncoder tg.encoderConfig).EncoderConfig =
      { tg.encoderConfig with
        LineEnding := "\n", NewReflectedEncoder := some .defaultReflectedEncoder } := by
  decide

/-- The configuration that the JSON encoder of the Telegram core holds:
`zap.NewProductionEncoderConfig()` with the reflected encoder filled in by
`zapcore.NewJSONEncoder`. -/
theorem telegramEncoder_config :
    (NewJSONEncoder zap.NewProductionEncoderConfig).EncoderConfig =
      { zap.NewProductionEncoderConfig with
        NewReflectedEncoder := some .defaultReflectedEncoder } := by
  decide

/-- The bytes of the console and file cores for an entry of the logger with a non-zero
time: the record with the level as lower-case name, the time by the layout
`2006-01-02T15:04:05.000Z0700`, the message and the fields, closed by a newline. -/
theorem sharedPayload_eq (env : Env) (L : Level) (now : time.Time) (msg : String)
    (fields : List Field) (hnow : time.Time.IsZero now = false) :
    tg.sharedPayload env ⟨L, now, "", msg⟩ fields =
      env.jsonBytes ([("level", .string (Level.String L)),
        ("ts", .timeLayout now "2006-01-02T15:04:05.000Z0700"),
        ("msg", .string msg)] ++ fields.map Field.AddTo) "\n" := by
  rw [tg.sharedPayload, jsonEncoder.EncodeEntry, jsonEncoder.members, sharedEncoder_config]
  simp [tg.encoderConfig, hnow, LevelEncoder.encode, TimeEncoder.encode]

/-- The bytes of the Telegram core for an entry of the logger with a non-zero time: the
record with the level as lower-case name, the time as the floating-point quotient of the
Unix nanoseconds by `time.Second`, the message and the fields, closed by a newline. -/
theorem telegramPayload_eq (env : Env) (L : Level) (now : time.Time) (msg : String)
    (fields : List Field) (hnow : time.Time.IsZero now = false) :
    tg.telegramPayload env ⟨L, now, "", msg⟩ fields =
      env.jsonBytes ([("level", .string (Level.String L)),
        ("ts", .float64Quotient (time.Time.UnixNano now) 1000000000),
        ("msg", .string msg)] ++ fields.map Field.AddTo) "\n" := by
  rw [tg.telegramPayload, jsonEncoder.EncodeEntry, jsonEncoder.members, telegramEncoder_config]
  simp [zap.NewProductionEncoderConfig, hnow, LevelEncoder.encode, TimeEncoder.encode,
    time.Second, OmitKey, DefaultLineEnding]

/-- Claim C6, as stated, fails.  In production the encoder of the third (Telegram) core
is configured with `EpochTimeEncoder`, not with `ISO8601TimeEncoder`: for an Error entry
at the Unix epoch, the console and file cores write the time member as the string of the
layout `2006-01-02T15:04:05.000Z0700`, the Telegram core writes it as the number
`float64(0) / float64(time.Second)`. -/
theorem C6_counterexample :
    tg.setupLogEncoderConfigs (Env.ofFlags true true true true) "production" World.init =
      [(NewJSONEncoder tg.encoderConfig).EncoderConfig,
       (NewJSONEncoder tg.encoderConfig).EncoderConfig,
       (NewJSONEncoder zap.NewProductionEncoderConfig).EncoderConfig] ∧
    (NewJSONEncoder tg.encoderConfig).EncoderConfig.EncodeTime = some .ISO8601TimeEncoder ∧
    (NewJSONEncoder zap.NewProductionEncoderConfig).EncoderConfig.EncodeTime =
      some .EpochTimeEncoder ∧
    ¬ (∀ cfg ∈ tg.setupLogEncoderConfigs (Env.ofFlags true true true true) "production"
        World.init, cfg.EncodeTime = some .ISO8601TimeEncoder) ∧
    (NewJSONEncoder tg.encoderConfig).members ⟨ErrorLevel, 0, "", "x"⟩ [] =
      [("level", .string "error"), ("ts", .timeLayout 0 "2006-01-02T15:04:05.000Z0700"),
       ("msg", .string "x")] ∧
    (NewJSONEncoder zap.NewProductionEncoderConfig).members ⟨ErrorLevel, 0, "", "x"⟩ [] =
      [("level", .string "error"), ("ts", .float64Quotient 0 1000000000),
       ("msg", .string "x")] ∧
    (JSONValue.float64Quotient 0 1000000000 ≠
      JSONValue.timeLayout 0 "2006-01-02T15:04:05.000Z0700") := by
  refine ⟨rfl, by decide, by decide, ?_, by decide, by decide, by decide⟩
  intro h
  have := h (NewJSONEncoder zap.NewProductionEncoderConfig).EncoderConfig (by
    show (NewJSONEncoder zap.NewProductionEncoderConfig).EncoderConfig ∈
      [(NewJSONEncoder tg.encoderConfig).EncoderConfig,
       (NewJSONEncoder tg.encoderConfig).EncoderConfig,
       (NewJSONEncoder zap.NewProductionEncoderConfig).EncoderConfig]
    simp)
  exact absurd this (by decide)

/-- Claim C6, amended.  Whatever `setupLog` returns, the JSON encoders of its cores hold
the configurations `[c]` (outside production) or `[c, c, t]` (production), where `c` comes
from the local `encoderConfig` and `t` from `zap.NewProductionEncoderConfig()`.  Every one
of them encodes the level with `LowercaseLevelEncoder`, which writes the lower-case level
name; `c` (console and file) encodes the time with `ISO8601TimeEncoder`, `t` (Telegram)
with `EpochTimeEncoder`.  Accordingly, for an entry with a non-zero time, standard output
and (in production) the file receive the record whose time member is the string of the
layout `2006-01-02T15:04:05.000Z0700`, while the Telegram chat receives the record whose
time member is the number `float64(UnixNano) / float64(time.Second)`; the level member
is the same in all three. -/
theorem C6_encoders_amended (env : Env) (name : String) (w0 : World) (logger : zap.Logger)
    (err0 : Option Error) (hsetup : (tg.setupLog env name w0).1 = .returned (logger, err0)) :
    (logger.core.encoderConfigs = [(NewJSONEncoder tg.encoderConfig).EncoderConfig] ∨
      (name = "production" ∧ logger.core.encoderConfigs =
        [(NewJSONEncoder tg.encoderConfig).EncoderConfig,
         (NewJSONEncoder tg.encoderConfig).EncoderConfig,
         (NewJSONEncoder zap.NewProductionEncoderConfig).EncoderConfig])) ∧
    (∀ cfg ∈ logger.core.encoderConfigs, cfg.EncodeLevel = some .LowercaseLevelEncoder) ∧
    (NewJSONEncoder tg.encoderConfig).EncoderConfig.EncodeTime = some .ISO8601TimeEncoder ∧
    (NewJSONEncoder zap.NewProductionEncoderConfig).EncoderConfig.EncodeTime =
      some .EpochTimeEncoder ∧
    (Level.String DebugLevel = "debug" ∧ Level.String InfoLevel = "info" ∧
      Level.String WarnLevel = "warn" ∧ Level.String ErrorLevel = "error" ∧
      Level.String DPanicLevel = "dpanic" ∧ Level.String PanicLevel = "panic" ∧
      Level.String FatalLevel = "fatal") ∧
    ∀ (L : Level) (msg : String) (fields : List Field) (now : time.Time) (w : World),
      DebugLevel ≤ L → time.Time.IsZero now = false →
      (logger.log env L msg fields now w).world.stdout = w.stdout ++
        [env.jsonBytes ([("level", .string (Level.String L)),
          ("ts", .timeLayout now "2006-01-02T15:04:05.000Z0700"),
          ("msg", .string msg)] ++ fields.map Field.AddTo) "\n"] ∧
      (name = "production" → InfoLevel ≤ L →
        (logger.log env L msg fields now w).world.files = w.files ++
          [("logs/all.log", env.jsonBytes ([("level", .string (Level.String L)),
            ("ts", .timeLayout now "2006-01-02T15:04:05.000Z0700"),
            ("msg", .string msg)] ++ fields.map Field.AddTo) "\n")]) ∧
      (name = "production" → ErrorLevel ≤ L →
        (logger.log env L msg fields now w).world.tgSent.map (fun m => m.2.Text) =
          w.tgSent.map (fun m => m.2.Text) ++
          [env.jsonBytes ([("level", .string (Level.String L)),
            ("ts", .float64Quotient (time.Time.UnixNano now) 1000000000),
            ("msg", .string msg)] ++ fields.map Field.AddTo) "\n"]) := by
  by_cases hn : name = "production"
  · subst hn
    obtain ⟨bot, _, _, hlogger⟩ := setupLog_production_returned env w0 logger err0 hsetup
    subst hlogger
    refine ⟨Or.inr ⟨rfl, rfl⟩, ?_, by decide, by decide, by decide, ?_⟩
    · intro cfg hmem
      have hmem2 : cfg ∈ [(NewJSONEncoder tg.encoderConfig).EncoderConfig,
          (NewJSONEncoder tg.encoderConfig).EncoderConfig,
          (NewJSONEncoder zap.NewProductionEncoderConfig).EncoderConfig] := hmem
      simp only [List.mem_cons, List.mem_singleton, List.not_mem_nil, or_false] at hmem2
      rcases hmem2 with rfl | rfl | rfl <;> decide
    · intro L msg fields now w hD hnow
      obtain ⟨e1, e2, e3, _⟩ := production_log_effect env
        { bot := bot, chatID := env.YOUR_CHAT_ID } L msg fields now w hD _ _ rfl rfl
      rw [e1, e2, e3, sharedPayload_eq env L now msg fields hnow,
        telegramPayload_eq env L now msg fields hnow]
      refine ⟨rfl, ?_, ?_⟩
      · intro _ hI
        simp [hI]
      · intro _ hE
        simp [hE, tgbotapi.NewMessage]
  · have heq := setupLog_other_eq env name hn w0
    rw [heq] at hsetup
    simp only [Outcome.returned.injEq, Prod.mk.injEq] at hsetup
    obtain ⟨hlogger, _⟩ := hsetup
    subst hlogger
    refine ⟨Or.inl rfl, ?_, by decide, by decide, by decide, ?_⟩
    · intro cfg hmem
      have hmem2 : cfg ∈ [(NewJSONEncoder tg.encoderConfig).EncoderConfig] := hmem
      simp only [List.mem_singleton] at hmem2
      subst hmem2
      decide
    · intro L msg fields now w hD hnow
      obtain ⟨e1, _, _, _, _⟩ := console_log_effect env L msg fields now w hD
      rw [e1, sharedPayload_eq env L now msg fields hnow]
      exact ⟨rfl, fun h => absurd h hn, fun h => absurd h hn⟩

/-- Claim C6, amended, at a production set-up whose bot can be built, for an Error entry
at the Unix epoch. -/
theorem C6_encoders_amended_witness :
    (tg.setupLog (Env.ofFlags true true true true) "production" World.init).1 =
      .returned (zap.New (.multi [tg.consoleCore, tg.fileCore,
        tg.tgCore { bot := ⟨"token"⟩, chatID := -1001 }]), none) ∧
    DebugLevel ≤ ErrorLevel ∧ time.Time.IsZero 0 = false ∧
    ((zap.New (.multi [tg.consoleCore, tg.fileCore,
        tg.tgCore { bot := ⟨"token"⟩, chatID := -1001 }])).log
        (Env.ofFlags true true true true) ErrorLevel "x" [] 0 World.init).world.stdout =
      [] ++ [(Env.ofFlags true true true true).jsonBytes ([("level", .string "error"),
        ("ts", .timeLayout 0 "2006-01-02T15:04:05.000Z0700"),
        ("msg", .string "x")] ++ [].map Field.AddTo) "\n"] :=
  ⟨rfl, by decide, by decide,
    ((C6_encoders_amended (Env.ofFlags true true true true) "production" World.init
      (zap.New (.multi [tg.consoleCore, tg.fileCore,
        tg.tgCore { bot := ⟨"token"⟩, chatID := -1001 }])) none rfl).2.2.2.2.2
      ErrorLevel "x" [] 0 World.init (by decide) (by decide)).1⟩
